import Mathlib

/-!
Verification development for the ccache argument-processing core
(`src/Arg.cpp`, `src/argprocessing.cpp`).

Strings are modelled as Lean `String`s; all operations that the C++ code
performs on `std::string` / `nonstd::string_view` (byte indexing, find,
substr, prefix/suffix tests) are carried out on the underlying character
list `String.data`.  External services that are not part of the surveyed
source (the file-stat oracle, the path relativizer, the compiler-option
classification tables, the language tables, response-file reading and the
environment) are parameters of the model, collected in the `Oracle`
structure.
-/

namespace Ccache

/-! ### Character-list string helpers -/

/-- Is `p` a prefix of `s` (C++ `Util::starts_with`)? -/
def chPre : List Char → List Char → Bool
  | [], _ => true
  | _ :: _, [] => false
  | p :: ps, c :: cs => p == c && chPre ps cs

/-- Does `p` occur as a contiguous run inside `s` (C++ `std::string::find` of
a string succeeding)? -/
def chSub (p : List Char) : List Char → Bool
  | [] => chPre p []
  | c :: cs => chPre p (c :: cs) || chSub p cs

/-- `Util::starts_with(s, p)`. -/
def sStarts (s p : String) : Bool := chPre p.data s.data

/-- `Util::ends_with(s, p)`. -/
def sEnds (s p : String) : Bool := chPre p.data.reverse s.data.reverse

/-- Does `sub` occur inside `s` (`s.find(sub) != npos`)? -/
def sHasSub (s sub : String) : Bool := chSub sub.data s.data

/-- `s.substr(0, n)` on byte strings. -/
def sTake (s : String) (n : Nat) : String := ⟨s.data.take n⟩

/-- `s.substr(n)` on byte strings. -/
def sDrop (s : String) (n : Nat) : String := ⟨s.data.drop n⟩

/-- `s.find(c, from) == npos`: no occurrence of `c` at index `from` or later. -/
def sNoCharFrom (s : String) (c : Char) (n : Nat) : Bool :=
  !((s.data.drop n).contains c)

/-- `s[0]` with the `std::string` guarantee that indexing at `size()` yields
the NUL character. -/
def sFirst (s : String) : Char := s.data.headD '\x00'

/-- `s.back()`; total version used only on nonempty strings in the model. -/
def sBack (s : String) : Char := s.data.getLastD '\x00'

/-- Index of the first `'='` in a character list, if any
(`std::string::find('=')`). -/
def findEq : List Char → Option Nat
  | [] => none
  | c :: cs => if c = '=' then some 0 else (findEq cs).map (· + 1)

/-- Index of the first `'/'` in a character list, if any
(`std::string::find('/')`). -/
def findSlash : List Char → Option Nat
  | [] => none
  | c :: cs => if c = '/' then some 0 else (findSlash cs).map (· + 1)

/-- Split a string on a single-character separator, keeping empty fields out,
as `Util::split_into_strings` does for the NVCC options-file list and
`Util::split_into_views` does for `DEPENDENCIES_OUTPUT`. -/
def splitOnChar (sep : Char) (s : String) : List String :=
  ((s.data.splitOnP (· = sep)).filter (· ≠ [])).map (fun l => ⟨l⟩)

/-! ### Arg (`src/Arg.cpp`) -/

/-- The `ArgSplit` tag: how an option token was split into key and value. -/
inductive ArgSplit
  | not_split
  | equal_sign
  | space
  | written_together
deriving DecidableEq, Repr, Inhabited

/-- The separator string rendered between key and value
(`to_string` in `Arg.cpp`). For `not_split` the C++ code asserts; the value
here is irrelevant because `fromParts` is never applied to `not_split` by
the processing code. -/
def ArgSplit.sep : ArgSplit → String
  | .not_split => ""
  | .equal_sign => "="
  | .space => " "
  | .written_together => ""

/-- One command-line token, optionally split into key/value
(`class Arg`). -/
structure Arg where
  full : String
  split_tag : ArgSplit
  key : String
  value : String
deriving DecidableEq, Repr, Inhabited

/-- `Arg::has_been_split()`. -/
def Arg.has_been_split (a : Arg) : Bool := a.split_tag ≠ .not_split

/-- `Arg::Arg(nonstd::string_view full)`: split on the first `'='` if there
is one, otherwise leave the token unsplit. -/
def Arg.fromToken (s : String) : Arg :=
  match findEq s.data with
  | some i => ⟨s, .equal_sign, ⟨s.data.take i⟩, ⟨s.data.drop (i + 1)⟩⟩
  | none => ⟨s, .not_split, "", ""⟩

/-- `Arg::Arg(key, split_char, value)`: render the full form as
`key + sep + value`, then recover the key and value slices from the full
string exactly as the constructor does with `substr`.
The C++ constructor throws on `not_split`; processing never reaches that
case, and the rendered value for it here is immaterial. -/
def Arg.fromParts (key : String) (sc : ArgSplit) (value : String) : Arg :=
  let full := key ++ sc.sep ++ value
  ⟨full, sc, sTake full key.data.length,
    sDrop full (key.data.length + (if sc = ArgSplit.written_together then 0 else 1))⟩

/-- Arg equality: by `(full, split_char)` (spec section 3). -/
def Arg.beq (a b : Arg) : Bool := a.full == b.full && a.split_tag == b.split_tag

/-- `Arg::Arg(const Arg&)` / `Arg::operator=`: copy `full` and the split tag,
then recompute the key/value slices over the copied string from the sizes of
the source's slices; clear them when the source was not split. -/
def Arg.copy (other : Arg) : Arg :=
  if other.has_been_split then
    { full := other.full
      split_tag := other.split_tag
      key := sTake other.full other.key.data.length
      value := sDrop other.full
        (other.key.data.length +
          (if other.split_tag = ArgSplit.written_together then 0 else 1)) }
  else
    { full := other.full, split_tag := other.split_tag, key := "", value := "" }

/-- Well-formedness: every `Arg` produced by the two constructors has its
key/value slices consistent with `full` and the split tag. -/
def Arg.WF (a : Arg) : Prop :=
  match a.split_tag with
  | .not_split => a.key = "" ∧ a.value = ""
  | sc => a.full = a.key ++ sc.sep ++ a.value

/-! #### Basic facts about the helpers -/

theorem chPre_nil (l : List Char) : chPre [] l = true := by
  cases l <;> rfl

theorem take_append_eq (a b : List Char) : (a ++ b).take a.length = a := by
  induction a with
  | nil => rfl
  | cons x xs ih => simp [List.take, ih]

theorem drop_append_eq (a b : List Char) : (a ++ b).drop a.length = b := by
  induction a with
  | nil => rfl
  | cons x xs ih => simp [List.drop, ih]

theorem drop_append_succ (a : List Char) (c : Char) (b : List Char) :
    (a ++ c :: b).drop (a.length + 1) = b := by
  induction a with
  | nil => rfl
  | cons x xs ih => simp [ih]

theorem findEq_append_eq (a b : List Char) (h : findEq a = none) :
    findEq (a ++ '=' :: b) = some a.length := by
  induction a with
  | nil => simp [findEq]
  | cons x xs ih =>
    have hx : x ≠ '=' := by
      intro hc
      simp [findEq, hc] at h
    have hxs : findEq xs = none := by
      simp [findEq, hx] at h
      exact h
    simp [findEq, hx, ih hxs]

theorem string_data_mk (l : List Char) : (String.mk l).data = l := rfl

theorem sep_append_data (k v : String) (c : Char) :
    (k ++ String.mk [c] ++ v).data = k.data ++ c :: v.data := by
  rw [String.data_append, String.data_append, string_data_mk, List.append_assoc,
    List.singleton_append]

/-- `fromParts` with a real separator recovers its key. -/
theorem fromParts_key (k v : String) (sc : ArgSplit) (h : sc ≠ .not_split) :
    (Arg.fromParts k sc v).key = k := by
  cases sc with
  | not_split => exact absurd rfl h
  | equal_sign =>
    show sTake (k ++ "=" ++ v) k.data.length = k
    apply String.ext
    show ((k ++ "=" ++ v).data.take k.data.length) = k.data
    rw [show ("=" : String) = String.mk ['='] from rfl, sep_append_data]
    rw [show (k.data ++ '=' :: v.data) = k.data ++ ('=' :: v.data) from rfl]
    exact take_append_eq _ _
  | space =>
    show sTake (k ++ " " ++ v) k.data.length = k
    apply String.ext
    show ((k ++ " " ++ v).data.take k.data.length) = k.data
    rw [show (" " : String) = String.mk [' '] from rfl, sep_append_data]
    exact take_append_eq _ _
  | written_together =>
    show sTake (k ++ "" ++ v) k.data.length = k
    apply String.ext
    show ((k ++ "" ++ v).data.take k.data.length) = k.data
    rw [String.data_append, String.data_append]
    rw [List.append_assoc]
    exact take_append_eq _ _

/-- `fromParts` with a real separator recovers its value. -/
theorem fromParts_value (k v : String) (sc : ArgSplit) (h : sc ≠ .not_split) :
    (Arg.fromParts k sc v).value = v := by
  cases sc with
  | not_split => exact absurd rfl h
  | equal_sign =>
    show sDrop (k ++ "=" ++ v) (k.data.length + 1) = v
    apply String.ext
    show ((k ++ "=" ++ v).data.drop (k.data.length + 1)) = v.data
    rw [show ("=" : String) = String.mk ['='] from rfl, sep_append_data]
    exact drop_append_succ _ _ _
  | space =>
    show sDrop (k ++ " " ++ v) (k.data.length + 1) = v
    apply String.ext
    show ((k ++ " " ++ v).data.drop (k.data.length + 1)) = v.data
    rw [show (" " : String) = String.mk [' '] from rfl, sep_append_data]
    exact drop_append_succ _ _ _
  | written_together =>
    show sDrop (k ++ "" ++ v) (k.data.length + 0) = v
    apply String.ext
    show ((k ++ "" ++ v).data.drop (k.data.length + 0)) = v.data
    rw [String.data_append, String.data_append]
    have h2 : k.data ++ "".data ++ v.data = k.data ++ v.data := by simp
    rw [h2]
    exact drop_append_eq _ _

theorem fromParts_full (k v : String) (sc : ArgSplit) :
    (Arg.fromParts k sc v).full = k ++ sc.sep ++ v := rfl

theorem fromParts_tag (k v : String) (sc : ArgSplit) :
    (Arg.fromParts k sc v).split_tag = sc := rfl

theorem fromToken_full (s : String) : (Arg.fromToken s).full = s := by
  unfold Arg.fromToken
  cases findEq s.data <;> rfl

/-- Both constructors establish well-formedness. -/
theorem fromParts_WF (k v : String) (sc : ArgSplit) (h : sc ≠ .not_split) :
    (Arg.fromParts k sc v).WF := by
  cases sc with
  | not_split => exact absurd rfl h
  | equal_sign =>
    show Arg.WF _
    unfold Arg.WF
    rw [fromParts_tag]
    rw [fromParts_key _ _ _ h, fromParts_value _ _ _ h, fromParts_full]
  | space =>
    show Arg.WF _
    unfold Arg.WF
    rw [fromParts_tag]
    rw [fromParts_key _ _ _ h, fromParts_value _ _ _ h, fromParts_full]
  | written_together =>
    show Arg.WF _
    unfold Arg.WF
    rw [fromParts_tag]
    rw [fromParts_key _ _ _ h, fromParts_value _ _ _ h, fromParts_full]

theorem findEq_take_drop (l : List Char) (i : Nat) (h : findEq l = some i) :
    l = l.take i ++ '=' :: l.drop (i + 1) := by
  induction l generalizing i with
  | nil => simp [findEq] at h
  | cons c cs ih =>
    by_cases hc : c = '='
    · simp [findEq, hc] at h
      subst h
      simp [hc]
    · simp [findEq, hc] at h
      obtain ⟨j, hj, hji⟩ := h
      subst hji
      simpa using ih j hj

/-! ### Statistics, configuration, context (`src/argprocessing.cpp`) -/

/-- The terminal `Statistic` values reachable from `process_args`. -/
inductive Statistic
  | called_for_preprocessing
  | bad_compiler_arguments
  | unsupported_compiler_option
  | could_not_use_modules
  | multiple_source_files
  | autoconf_test
  | called_for_link
  | unsupported_source_language
  | no_input_file
  | could_not_use_precompiled_header
  | output_to_stdout
  | bad_output_file
deriving DecidableEq, Repr

inductive GuessedCompiler
  | clang
  | gcc
  | nvcc
  | unknown
deriving DecidableEq, Repr, Inhabited

inductive ColorDiagnostics
  | never
  | automatic
  | always
deriving DecidableEq, Repr, Inhabited

/-- Result of the file-stat oracle for an existing path. -/
structure FsStat where
  is_regular : Bool
  is_directory : Bool
deriving DecidableEq, Repr, Inhabited

/-- The slice of `Config` that `process_args` reads or writes. Sloppiness is
modelled as one Boolean per bit used by the code. -/
structure Config where
  direct_mode : Bool := true
  depend_mode : Bool := false
  run_second_cpp : Bool := true
  sloppy_modules : Bool := false
  sloppy_time_macros : Bool := false
  sloppy_pch_defines : Bool := false
  sloppy_clang_index_store : Bool := false
  cpp_extension : String := ""
deriving DecidableEq, Repr, Inhabited

/-- The `ArgsInfo` record populated as a side effect of processing. -/
structure ArgsInfo where
  input_file : String := ""
  output_obj : String := ""
  output_dep : String := ""
  output_dwo : String := ""
  output_cov : String := ""
  output_su : String := ""
  output_dia : String := ""
  actual_language : String := ""
  arch_args : List String := []
  debug_prefix_maps : List String := []
  sanitize_blacklists : List String := []
  depend_extra_args : List String := []
  generating_dependencies : Bool := false
  generating_debuginfo : Bool := false
  generating_coverage : Bool := false
  generating_stackusage : Bool := false
  generating_diagnostics : Bool := false
  seen_MD_MMD : Bool := false
  seen_split_dwarf : Bool := false
  profile_generate : Bool := false
  profile_use : Bool := false
  profile_arcs : Bool := false
  profile_path : String := ""
  using_precompiled_header : Bool := false
  fno_pch_timestamp : Bool := false
  output_is_precompiled_header : Bool := false
  strip_diagnostics_colors : Bool := false
  direct_i_file : Bool := false
  dependency_target_specified : Bool := false
deriving DecidableEq, Repr, Inhabited

/-- External services consumed by the core (spec section 1): the file-stat
oracle, the base-dir path relativizer, response-file reading, the
compiler-option classification tables (`compopt.cpp`, outside the surveyed
source), the language tables (`language.cpp`, outside the surveyed source),
the environment and the TTY test. They are uninterpreted parameters of the
model. -/
structure Oracle where
  stat : String → Option FsStat
  relpath : String → String
  atfile : String → Option (List String)
  tooHard : String → Bool
  tooHardDirect : String → Bool
  affectsComp : String → Bool
  prefixAffectsComp : String → Bool
  affectsCpp : String → Bool
  prefixAffectsCpp : String → Bool
  takesArg : String → Bool
  takesConcatArg : String → Bool
  takesPath : String → Bool
  languageForFile : String → String
  languageIsSupported : String → Bool
  languageIsPreprocessed : String → Bool
  pLanguageForLanguage : String → String
  extensionForLanguage : String → String
  envDependenciesOutput : Option String
  envSunproDependencies : Option String
  colorTty : Bool

/-- The `Context` slice used by `process_args`. -/
structure Ctx where
  orig_args : List Arg
  guessed_compiler : GuessedCompiler
  apparent_cwd : String
  included_pch_file : String := ""
  args_info : ArgsInfo := {}
  config : Config := {}
  oracle : Oracle

/-- The local `ArgumentProcessingState`. -/
structure APState where
  found_c_opt : Bool := false
  found_dc_opt : Bool := false
  found_S_opt : Bool := false
  found_pch : Bool := false
  found_fpch_preprocess : Bool := false
  color_diagnostics : ColorDiagnostics := .automatic
  found_directives_only : Bool := false
  found_rewrite_includes : Bool := false
  explicit_language : String := ""
  file_language : String := ""
  input_charset_option : String := ""
  dependency_filename_specified : Bool := false
  dependency_implicit_target_specified : Bool := false
  generating_debuginfo_level_3 : Bool := false
  common_args : List Arg := []
  cpp_args : List Arg := []
  dep_args : List Arg := []
  compiler_only_args : List Arg := []
deriving Repr, Inhabited

/-! #### Field updates

The C++ code mutates single fields of `Config`, `ArgsInfo`, the `Context`
and the local state in place.  Each mutation is modelled by a small update
function; keeping them abbreviations of single-field record updates keeps
the transcription of `process_arg` close to the source. -/

def Config.withDirect (c : Config) (b : Bool) : Config := { c with direct_mode := b }

def Config.withRsc (c : Config) (b : Bool) : Config := { c with run_second_cpp := b }

def Config.withCppExt (c : Config) (s : String) : Config := { c with cpp_extension := s }

def ArgsInfo.withInputFile (x : ArgsInfo) (v : String) : ArgsInfo := { x with input_file := v }

def ArgsInfo.withOutputObj (x : ArgsInfo) (v : String) : ArgsInfo := { x with output_obj := v }

def ArgsInfo.withOutputDep (x : ArgsInfo) (v : String) : ArgsInfo := { x with output_dep := v }

def ArgsInfo.withOutputDwo (x : ArgsInfo) (v : String) : ArgsInfo := { x with output_dwo := v }

def ArgsInfo.withOutputCov (x : ArgsInfo) (v : String) : ArgsInfo := { x with output_cov := v }

def ArgsInfo.withOutputSu (x : ArgsInfo) (v : String) : ArgsInfo := { x with output_su := v }

def ArgsInfo.withOutputDia (x : ArgsInfo) (v : String) : ArgsInfo := { x with output_dia := v }

def ArgsInfo.withActualLang (x : ArgsInfo) (v : String) : ArgsInfo :=
  { x with actual_language := v }

def ArgsInfo.withProfilePath (x : ArgsInfo) (v : String) : ArgsInfo :=
  { x with profile_path := v }

def ArgsInfo.withArch (x : ArgsInfo) (v : List String) : ArgsInfo := { x with arch_args := v }

def ArgsInfo.pushDebugPrefixMap (x : ArgsInfo) (v : String) : ArgsInfo :=
  { x with debug_prefix_maps := x.debug_prefix_maps ++ [v] }

def ArgsInfo.pushSanitize (x : ArgsInfo) (v : String) : ArgsInfo :=
  { x with sanitize_blacklists := x.sanitize_blacklists ++ [v] }

def ArgsInfo.pushDependExtra (x : ArgsInfo) (v : String) : ArgsInfo :=
  { x with depend_extra_args := x.depend_extra_args ++ [v] }

def ArgsInfo.withGenDeps (x : ArgsInfo) (b : Bool) : ArgsInfo :=
  { x with generating_dependencies := b }

def ArgsInfo.withGenDebug (x : ArgsInfo) (b : Bool) : ArgsInfo :=
  { x with generating_debuginfo := b }

def ArgsInfo.withGenCov (x : ArgsInfo) (b : Bool) : ArgsInfo :=
  { x with generating_coverage := b }

def ArgsInfo.withGenStack (x : ArgsInfo) (b : Bool) : ArgsInfo :=
  { x with generating_stackusage := b }

def ArgsInfo.withGenDiag (x : ArgsInfo) (b : Bool) : ArgsInfo :=
  { x with generating_diagnostics := b }

def ArgsInfo.withSeenMDMMD (x : ArgsInfo) (b : Bool) : ArgsInfo :=
  { x with seen_MD_MMD := b }

def ArgsInfo.withSeenSplitDwarf (x : ArgsInfo) (b : Bool) : ArgsInfo :=
  { x with seen_split_dwarf := b }

def ArgsInfo.withProfileGen (x : ArgsInfo) (b : Bool) : ArgsInfo :=
  { x with profile_generate := b }

def ArgsInfo.withProfileUse (x : ArgsInfo) (b : Bool) : ArgsInfo :=
  { x with profile_use := b }

def ArgsInfo.withProfileArcs (x : ArgsInfo) (b : Bool) : ArgsInfo :=
  { x with profile_arcs := b }

def ArgsInfo.withUsingPch (x : ArgsInfo) (b : Bool) : ArgsInfo :=
  { x with using_precompiled_header := b }

def ArgsInfo.withFnoPchTimestamp (x : ArgsInfo) (b : Bool) : ArgsInfo :=
  { x with fno_pch_timestamp := b }

def ArgsInfo.withOutputIsPch (x : ArgsInfo) (b : Bool) : ArgsInfo :=
  { x with output_is_precompiled_header := b }

def ArgsInfo.withStripColors (x : ArgsInfo) (b : Bool) : ArgsInfo :=
  { x with strip_diagnostics_colors := b }

def ArgsInfo.withDirectIFile (x : ArgsInfo) (b : Bool) : ArgsInfo :=
  { x with direct_i_file := b }

def ArgsInfo.withDepTargetSpec (x : ArgsInfo) (b : Bool) : ArgsInfo :=
  { x with dependency_target_specified := b }

def Ctx.withInfo (c : Ctx) (x : ArgsInfo) : Ctx := { c with args_info := x }

def Ctx.withConfig (c : Ctx) (x : Config) : Ctx := { c with config := x }

def Ctx.withIncludedPch (c : Ctx) (v : String) : Ctx := { c with included_pch_file := v }

def APState.pushCommon (st : APState) (xs : List Arg) : APState :=
  { st with common_args := st.common_args ++ xs }

def APState.pushCpp (st : APState) (xs : List Arg) : APState :=
  { st with cpp_args := st.cpp_args ++ xs }

def APState.pushDep (st : APState) (xs : List Arg) : APState :=
  { st with dep_args := st.dep_args ++ xs }

def APState.pushComponly (st : APState) (xs : List Arg) : APState :=
  { st with compiler_only_args := st.compiler_only_args ++ xs }

def APState.withFoundC (st : APState) (b : Bool) : APState := { st with found_c_opt := b }

def APState.withFoundDc (st : APState) (b : Bool) : APState := { st with found_dc_opt := b }

def APState.withFoundS (st : APState) (b : Bool) : APState := { st with found_S_opt := b }

def APState.withFoundPch (st : APState) (b : Bool) : APState := { st with found_pch := b }

def APState.withFpchPre (st : APState) (b : Bool) : APState :=
  { st with found_fpch_preprocess := b }

def APState.withColor (st : APState) (c : ColorDiagnostics) : APState :=
  { st with color_diagnostics := c }

def APState.withDirectivesOnly (st : APState) (b : Bool) : APState :=
  { st with found_directives_only := b }

def APState.withRewriteIncludes (st : APState) (b : Bool) : APState :=
  { st with found_rewrite_includes := b }

def APState.withExplicitLang (st : APState) (v : String) : APState :=
  { st with explicit_language := v }

def APState.withFileLang (st : APState) (v : String) : APState :=
  { st with file_language := v }

def APState.withInputCharset (st : APState) (v : String) : APState :=
  { st with input_charset_option := v }

def APState.withDepFileSpec (st : APState) (b : Bool) : APState :=
  { st with dependency_filename_specified := b }

def APState.withDepImplicitTarget (st : APState) (b : Bool) : APState :=
  { st with dependency_implicit_target_specified := b }

def APState.withLevel3 (st : APState) (b : Bool) : APState :=
  { st with generating_debuginfo_level_3 := b }

/-! ### Parameter fusion

Modelled from the spec: the `Args::add_param` reparse pass is implemented in
`Args.cpp`, which is not part of the surveyed source (the surveyed `Args.hpp`
is an older revision without the split-aware signature used by
`process_args`). Spec section 4.2: for a registered parameter `p` with
allowed splits `S`, if `space ∈ S` adjacent tokens `[p, v]` fuse to
`Arg(p, space, v)` provided `v` does not start with `-`; if `equal_sign ∈ S`
a token `p=v` is already represented by `from_token`; if
`written_together ∈ S` a token `pv` with nonempty `v` becomes
`Arg(p, written_together, v)`. -/

def fuseParam (p : String) (sps : List ArgSplit) : List Arg → List Arg
  | [] => []
  | [a] =>
    if a.split_tag = ArgSplit.not_split ∧ a.full = p ∧ ArgSplit.space ∈ sps then
      [a]
    else if a.split_tag = ArgSplit.not_split ∧ sStarts a.full p ∧ a.full ≠ p ∧
        ArgSplit.written_together ∈ sps then
      [Arg.fromParts p .written_together (sDrop a.full p.data.length)]
    else [a]
  | a :: b :: rest2 =>
    if a.split_tag = ArgSplit.not_split ∧ a.full = p ∧ ArgSplit.space ∈ sps then
      if sStarts b.full "-" then a :: fuseParam p sps (b :: rest2)
      else Arg.fromParts p .space b.full :: fuseParam p sps rest2
    else if a.split_tag = ArgSplit.not_split ∧ sStarts a.full p ∧ a.full ≠ p ∧
        ArgSplit.written_together ∈ sps then
      Arg.fromParts p .written_together (sDrop a.full p.data.length) ::
        fuseParam p sps (b :: rest2)
    else
      a :: fuseParam p sps (b :: rest2)

/-- The parameter registrations performed at the top of `process_args`
(lines 883-891 of `argprocessing.cpp`). -/
def ccacheParams : List (String × List ArgSplit) :=
  [("--ccache-skip", [.space]),
   ("-optf", [.space]),
   ("--options-file", [.space]),
   ("-arch", [.space]),
   ("-x", [.space, .written_together]),
   ("-MF", [.space, .equal_sign, .written_together]),
   ("-MQ", [.space, .written_together]),
   ("-MT", [.space, .written_together])]

/-- Apply every registered parameter fusion, in registration order. -/
def addParams (ps : List (String × List ArgSplit)) (args : List Arg) : List Arg :=
  ps.foldl (fun acc pr => fuseParam pr.1 pr.2 acc) args

/-! ### `process_profiling_option` and `detect_pch` -/

/-- `process_profiling_option` (lines 135-206 of `argprocessing.cpp`).
`none` means rejection. -/
def processProfilingOption (ctx : Ctx) (argStr : String) : Option ArgsInfo :=
  let info := ctx.args_info
  if argStr = "-fprofile-correction" ∨ argStr = "-fprofile-reorder-functions" ∨
      argStr = "-fprofile-sample-accurate" ∨ argStr = "-fprofile-values" then
    some info
  else
    let arg := Arg.fromToken argStr
    let step : Option (ArgsInfo × String × Bool) :=
      if arg.key = "-fprofile-dir" then
        some (info, arg.value, false)
      else if arg.full = "-fprofile-generate" ∨ arg.full = "-fprofile-instr-generate" then
        some (info.withProfileGen true,
          if ctx.guessed_compiler = GuessedCompiler.clang then "." else ctx.apparent_cwd,
          false)
      else if arg.key = "-fprofile-generate" ∨ arg.key = "-fprofile-instr-generate" then
        some (info.withProfileGen true, arg.value, false)
      else if arg.full = "-fprofile-use" ∨ arg.full = "-fprofile-instr-use" ∨
          arg.full = "-fprofile-sample-use" ∨ arg.full = "-fbranch-probabilities" ∨
          arg.full = "-fauto-profile" then
        some (info, if info.profile_path = "" then "." else "", true)
      else if arg.key = "-fprofile-use" ∨ arg.key = "-fprofile-instr-use" ∨
          arg.key = "-fprofile-sample-use" ∨ arg.key = "-fauto-profile" then
        some (info, arg.value, true)
      else
        none
    match step with
    | none => none
    | some (info1, newPath, newUse) =>
      if newUse ∧ info1.profile_use then none
      else
        let info2 := if newUse then info1.withProfileUse true else info1
        let info3 :=
          if newPath ≠ "" then info2.withProfilePath newPath else info2
        if info3.profile_generate ∧ info3.profile_use then none else some info3

/-- `detect_pch` (lines 93-133). `none` means the multiple-PCH failure;
otherwise returns the new `included_pch_file` and `found_pch` values. The
loop over `.gch`/`.pch`/`.pth` overwrites `pch_file` on every successful
stat, so the last existing candidate wins. -/
def detectPch (ctx : Ctx) (option arg : String) (is_cc1 : Bool)
    (found_pch : Bool) : Option (String × Bool) :=
  let pch_file :=
    if option = "-include-pch" ∨ option = "-include-pth" then
      if (ctx.oracle.stat arg).isSome then arg else ""
    else if ¬ is_cc1 then
      let t1 := if (ctx.oracle.stat (arg ++ ".gch")).isSome then arg ++ ".gch" else ""
      let t2 := if (ctx.oracle.stat (arg ++ ".pch")).isSome then arg ++ ".pch" else t1
      if (ctx.oracle.stat (arg ++ ".pth")).isSome then arg ++ ".pth" else t2
    else ""
  if pch_file ≠ "" then
    if ctx.included_pch_file ≠ "" then none
    else some (pch_file, true)
  else some (ctx.included_pch_file, found_pch)

/-! ### `process_arg` -/

/-- `args[i]` with the out-of-range default never exercised by the loop. -/
def aget (args : List Arg) (i : Nat) : Arg := args.getD i default

/-- Outcome of one `process_arg` call: a terminal statistic, or the updated
context, argument vector, index and state. -/
inductive StepResult
  | err : Statistic → StepResult
  | ok : Ctx → List Arg → Nat → APState → StepResult

/-- Load the comma-separated NVCC options files in reverse order, inserting
each after index `i` (lines 262-271). -/
def insertOptionsFiles (ctx : Ctx) (i : Nat) :
    List String → List Arg → Option (List Arg)
  | [], acc => some acc
  | p :: rest, acc =>
    match ctx.oracle.atfile p with
    | none => none
    | some toks =>
      insertOptionsFiles ctx i rest
        (acc.take (i + 1) ++ toks.map Arg.fromToken ++ acc.drop (i + 1))

/-- Lines 741-809 of `process_arg`: options that take an argument, other
dash options, and input-file handling. -/
def processArgTail (ctx : Ctx) (args : List Arg) (i : Nat) (st : APState) :
    StepResult :=
  let a := aget args i
  let oc := ctx.oracle
  if oc.takesArg a.full then
    if i + 1 = args.length then .err .bad_compiler_arguments
    else if oc.affectsCpp a.full then
      .ok ctx args (i + 1) (st.pushCpp [a, aget args (i + 1)])
    else
      .ok ctx args (i + 1) (st.pushCommon [a, aget args (i + 1)])
  else if sFirst a.full = '-' then
    if oc.affectsCpp a.full ∨ oc.prefixAffectsCpp a.full then
      .ok ctx args i (st.pushCpp [a])
    else
      .ok ctx args i (st.pushCommon [a])
  else
    let notRegular : Bool :=
      a.full != "/dev/null" && !((oc.stat a.full).elim false FsStat.is_regular)
    if notRegular then
      .ok ctx args i (st.pushCommon [a])
    else if ctx.args_info.input_file ≠ "" then
      if oc.languageForFile a.full ≠ "" then .err .multiple_source_files
      else if ¬ st.found_c_opt ∧ ¬ st.found_dc_opt then
        if sHasSub a.full "conftest." then .err .autoconf_test
        else .err .called_for_link
      else .err .unsupported_source_language
    else if ctx.args_info.generating_coverage then
      .ok (ctx.withInfo (ctx.args_info.withInputFile a.full)) args i st
    else
      .ok (ctx.withInfo (ctx.args_info.withInputFile (oc.relpath a.full))) args i st

/-- Lines 686-738 of `process_arg`: `takes_path` options (with the
`-Xclang` two-hop form and PCH detection) and options with a concatenated
path argument. -/
def processArgPath (ctx : Ctx) (args : List Arg) (i : Nat) (st : APState) :
    StepResult :=
  let a := aget args i
  let oc := ctx.oracle
  if oc.takesPath a.full then
    if i + 1 = args.length then .err .bad_compiler_arguments
    else
      let next : Nat :=
        if (aget args (i + 1)).full = "-Xclang" ∧ i + 2 < args.length then 2 else 1
      match detectPch ctx a.full (aget args (i + next)).full (next = 2)
          st.found_pch with
      | none => .err .bad_compiler_arguments
      | some (pch, fp) =>
        let relp := oc.relpath (aget args (i + next)).full
        let pushed :=
          [a] ++ (if next = 2 then [aget args (i + 1)] else []) ++
            [Arg.fromToken relp]
        let st1 :=
          if oc.affectsCpp a.full then (st.withFoundPch fp).pushCpp pushed
          else (st.withFoundPch fp).pushCommon pushed
        .ok (ctx.withIncludedPch pch) args (i + next) st1
  else
    match (if sFirst a.full = '-' then findSlash a.full.data else none) with
    | some sp =>
      let option := sTake a.full sp
      if oc.takesConcatArg option ∧ oc.takesPath option then
        let relp := oc.relpath (sDrop a.full sp)
        let newOpt := option ++ relp
        if oc.affectsCpp option then
          .ok ctx args i (st.pushCpp [Arg.fromToken newOpt])
        else
          .ok ctx args i (st.pushCommon [Arg.fromToken newOpt])
      else processArgTail ctx args i st
    | none => processArgTail ctx args i st

/-- Lines 635-684 of `process_arg`: diagnostics colors, the
preprocessing-mode flags, the PCH flags and `-index-store-path`;
everything later is delegated to `processArgPath`. -/
def processArgMidC (ctx : Ctx) (args : List Arg) (i : Nat) (st : APState) :
    StepResult :=
  let a := aget args i
  let info := ctx.args_info
  if a.full = "-fcolor-diagnostics" ∨ a.full = "-fdiagnostics-color" ∨
      a.full = "-fdiagnostics-color=always" then
    .ok ctx args i (st.withColor .always)
  else if a.full = "-fno-color-diagnostics" ∨ a.full = "-fno-diagnostics-color" ∨
      a.full = "-fdiagnostics-color=never" then
    .ok ctx args i (st.withColor .never)
  else if a.full = "-fdiagnostics-color=auto" then
    .ok ctx args i (st.withColor .automatic)
  else if a.full = "-fdirectives-only" then
    .ok ctx args i (st.withDirectivesOnly true)
  else if a.full = "-frewrite-includes" then
    .ok ctx args i (st.withRewriteIncludes true)
  else if a.full = "-fno-pch-timestamp" then
    .ok (ctx.withInfo (info.withFnoPchTimestamp true)) args i (st.pushCommon [a])
  else if a.full = "-fpch-preprocess" then
    .ok ctx args i ((st.withFpchPre true).pushCommon [a])
  else if ctx.config.sloppy_clang_index_store ∧ a.full = "-index-store-path" then
    .ok ctx args (i + 1) st
  else processArgPath ctx args i st

/-- Lines 562-633 of `process_arg`: the `-Wp,` sub-protocol, `-MP`,
`-finput-charset` and `--serialize-diagnostics`; everything later is
delegated to `processArgMidC`. -/
def processArgMidB (ctx : Ctx) (args : List Arg) (i : Nat) (st : APState) :
    StepResult :=
  let a := aget args i
  let oc := ctx.oracle
  let info := ctx.args_info
  if sStarts a.full "-Wp," then
    if a.full = "-Wp,-P" ∨ sHasSub a.full ",-P," ∨ sEnds a.full ",-P" then
      .err .unsupported_compiler_option
    else if sStarts a.full "-Wp,-MD," ∧ sNoCharFrom a.full ',' 8 then
      .ok (ctx.withInfo
            ((info.withGenDeps true).withOutputDep (oc.relpath (sDrop a.full 8))))
        args i ((st.withDepFileSpec true).pushDep [a])
    else if sStarts a.full "-Wp,-MMD," ∧ sNoCharFrom a.full ',' 9 then
      .ok (ctx.withInfo
            ((info.withGenDeps true).withOutputDep (oc.relpath (sDrop a.full 9))))
        args i ((st.withDepFileSpec true).pushDep [a])
    else if sStarts a.full "-Wp,-D" ∧ sNoCharFrom a.full ',' 6 then
      .ok ctx args i (st.pushCpp [Arg.fromToken (sDrop a.full 4)])
    else if a.full = "-Wp,-MP" ∨
        (a.full.data.length > 8 ∧ sStarts a.full "-Wp,-M" ∧
          a.full.data.getD 7 '\x00' = ',' ∧
          (a.full.data.getD 6 '\x00' = 'F' ∨ a.full.data.getD 6 '\x00' = 'Q' ∨
            a.full.data.getD 6 '\x00' = 'T') ∧
          sNoCharFrom a.full ',' 8) then
      .ok ctx args i (st.pushDep [a])
    else
      let ctx1 :=
        if ctx.config.direct_mode then ctx.withConfig (ctx.config.withDirect false)
        else ctx
      .ok ctx1 args i (st.pushCpp [a])
  else if a.full = "-MP" then
    .ok ctx args i (st.pushDep [a])
  else if a.key = "-finput-charset" then
    .ok ctx args i (st.withInputCharset a.full)
  else if a.full = "--serialize-diagnostics" then
    if i + 1 = args.length then .err .bad_compiler_arguments
    else
      .ok (ctx.withInfo
            ((info.withGenDiag true).withOutputDia (oc.relpath (aget args (i + 1)).full)))
        args (i + 1) st
  else processArgMidC ctx args i st

/-- Lines 487-560 of `process_arg`: coverage and profiling options,
`-fsanitize-blacklist`, `--sysroot` and `-target`; everything later is
delegated to `processArgMidB`. -/
def processArgMid (ctx : Ctx) (args : List Arg) (i : Nat) (st : APState) :
    StepResult :=
  let a := aget args i
  let oc := ctx.oracle
  let info := ctx.args_info
  if a.full = "-fprofile-arcs" then
    .ok (ctx.withInfo (info.withProfileArcs true)) args i (st.pushCommon [a])
  else if a.full = "-ftest-coverage" then
    .ok (ctx.withInfo (info.withGenCov true)) args i (st.pushCommon [a])
  else if a.full = "-fstack-usage" then
    .ok (ctx.withInfo (info.withGenStack true)) args i (st.pushCommon [a])
  else if a.full = "--coverage" ∨ a.full = "-coverage" then
    .ok (ctx.withInfo ((info.withProfileArcs true).withGenCov true)) args i
      (st.pushCommon [a])
  else if sStarts a.full "-fprofile-" ∨ sStarts a.full "-fauto-profile" ∨
      a.full = "-fbranch-probabilities" then
    match processProfilingOption ctx a.full with
    | none => .err .unsupported_compiler_option
    | some info1 => .ok (ctx.withInfo info1) args i (st.pushCommon [a])
  else if a.key = "-fsanitize-blacklist" then
    .ok (ctx.withInfo (info.pushSanitize a.value)) args i (st.pushCommon [a])
  else if a.key = "--sysroot" then
    .ok ctx args i
      (st.pushCommon [Arg.fromToken ("--sysroot=" ++ oc.relpath a.value)])
  else if a.full = "--sysroot" then
    if i + 1 = args.length then .err .bad_compiler_arguments
    else
      .ok ctx args (i + 1)
        (st.pushCommon [a, Arg.fromToken (oc.relpath (aget args (i + 1)).full)])
  else if a.full = "-target" then
    if i + 1 = args.length then .err .bad_compiler_arguments
    else
      .ok ctx args (i + 1) (st.pushCommon [a, aget args (i + 1)])
  else processArgMidB ctx args i st

/-- Lines 400-485 of `process_arg`: `-o`, the prefix maps, the `-g`
family and the `-MD`/`-MF`/`-MQ`/`-MT` dependency options; everything later
is delegated to `processArgMid`. -/
def processArgMainB (ctx : Ctx) (args : List Arg) (i : Nat) (st : APState) :
    StepResult :=
  let a := aget args i
  let oc := ctx.oracle
  let info := ctx.args_info
  if a.full = "-o" then
    if i + 1 = args.length then .err .bad_compiler_arguments
    else
      .ok (ctx.withInfo (info.withOutputObj (oc.relpath (aget args (i + 1)).full)))
        args (i + 1) st
  else if sStarts a.full "-o" ∧ ctx.guessed_compiler ≠ GuessedCompiler.nvcc then
    .ok (ctx.withInfo (info.withOutputObj (oc.relpath (sDrop a.full 2)))) args i st
  else if a.key = "-fdebug-prefix-map" ∨ a.key = "-ffile-prefix-map" then
    .ok (ctx.withInfo (info.pushDebugPrefixMap a.value)) args i (st.pushCommon [a])
  else if sStarts a.full "-g" then
    let st1 := st.pushCommon [a]
    if sStarts a.full "-gdwarf" then
      .ok (ctx.withInfo (info.withGenDebug true)) args i st1
    else if sStarts a.full "-gz" then
      .ok ctx args i st1
    else if sBack a.full = '0' then
      .ok (ctx.withInfo (info.withGenDebug false)) args i (st1.withLevel3 false)
    else
      .ok (ctx.withInfo
            ((info.withGenDebug true).withSeenSplitDwarf
              (if a.full = "-gsplit-dwarf" then true else info.seen_split_dwarf)))
        args i
        (st1.withLevel3
          (if sBack a.full = '3' then true else st1.generating_debuginfo_level_3))
  else if a.full = "-MD" ∨ a.full = "-MMD" then
    .ok (ctx.withInfo ((info.withGenDeps true).withSeenMDMMD true)) args i
      (st.pushDep [a])
  else if a.key = "-MF" then
    let dep_file := oc.relpath a.value
    .ok ctx args i
      ((st.withDepFileSpec true).pushDep
        [Arg.fromParts a.key
          (if a.split_tag = ArgSplit.equal_sign then ArgSplit.written_together
           else a.split_tag)
          dep_file])
  else if a.key = "-MQ" ∨ a.key = "-MT" then
    let relp := oc.relpath a.value
    .ok (ctx.withInfo (info.withDepTargetSpec true)) args i
      (st.pushDep [Arg.fromParts a.key a.split_tag relp])
  else processArgMid ctx args i st

/-- Lines 322-398 of `process_arg` (after the `-Xclang` adjustment):
compiler-only options, `-fmodules`, `-c`/`-dc`/`-S` and `-x`; everything
later is delegated to `processArgMainB`. -/
def processArgMain (ctx : Ctx) (args : List Arg) (i : Nat) (st : APState) :
    StepResult :=
  let a := aget args i
  let oc := ctx.oracle
  let info := ctx.args_info
  if oc.affectsComp a.full then
    if oc.takesArg a.full ∨
        (ctx.guessed_compiler = GuessedCompiler.nvcc ∧ a.full = "-Werror") then
      if i + 1 = args.length then .err .bad_compiler_arguments
      else
        .ok ctx args (i + 1) (st.pushComponly [a, aget args (i + 1)])
    else .ok ctx args i (st.pushComponly [a])
  else if oc.prefixAffectsComp a.full then
    .ok ctx args i (st.pushComponly [a])
  else if a.full = "-fmodules" ∧ (¬ ctx.config.depend_mode ∨ ¬ ctx.config.direct_mode) then
    .err .could_not_use_modules
  else if a.full = "-fmodules" ∧ ¬ ctx.config.sloppy_modules then
    .err .could_not_use_modules
  else if a.full = "-c" then
    .ok ctx args i (st.withFoundC true)
  else if (a.full = "-dc" ∨ a.full = "--device-c") ∧
      ctx.guessed_compiler = GuessedCompiler.nvcc then
    .ok ctx args i (st.withFoundDc true)
  else if a.full = "-S" then
    .ok ctx args i ((st.pushCommon [a]).withFoundS true)
  else if a.key = "-x" then
    if ¬ (sFirst a.value).isLower then
      .ok ctx args i (st.pushCommon [a])
    else if info.input_file = "" then
      .ok ctx args i (st.withExplicitLang a.value)
    else .ok ctx args i st
  else processArgMainB ctx args i st

/-- Lines 284-320 of `process_arg`: direct-mode disabling, `-Xarch_*`,
`-arch` and the `-Xclang` index adjustment, then the main dispatch. -/
def processArgRest (ctx : Ctx) (args : List Arg) (i : Nat) (st : APState) :
    StepResult :=
  let a := aget args i
  let oc := ctx.oracle
  let ctx1 :=
    if ctx.config.direct_mode ∧ oc.tooHardDirect a.full then
      ctx.withConfig (ctx.config.withDirect false)
    else ctx
  if sStarts a.full "-Xarch_" then
    .err .unsupported_compiler_option
  else if a.key = "-arch" then
    let newArch := ctx1.args_info.arch_args ++ [a.value]
    let ctx2 := ctx1.withInfo (ctx1.args_info.withArch newArch)
    if newArch.length = 2 then
      .ok (ctx2.withConfig (ctx2.config.withRsc true)) args i st
    else .ok ctx2 args i st
  else
    let xclang :=
      a.full = "-Xclang" ∧ i + 1 < args.length ∧
        ((aget args (i + 1)).full = "-emit-pch" ∨
          (aget args (i + 1)).full = "-emit-pth" ∨
          (aget args (i + 1)).full = "-include-pch" ∨
          (aget args (i + 1)).full = "-include-pth" ∨
          (aget args (i + 1)).full = "-fno-pch-timestamp")
    if xclang then
      let nxt := (aget args (i + 1)).full
      let st1 :=
        if oc.affectsComp nxt then st.pushComponly [Arg.fromToken "-Xclang"]
        else if oc.affectsCpp nxt then st.pushCpp [Arg.fromToken "-Xclang"]
        else st.pushCommon [Arg.fromToken "-Xclang"]
      processArgMain ctx1 args (i + 1) st1
    else
      processArgMain ctx1 args i st

/-- `process_arg` (lines 218-810): the leading special cases
(`--ccache-skip`, `-E`, response files, NVCC options files, too-hard
options), then `processArgRest`. -/
def processArg (ctx : Ctx) (args : List Arg) (i : Nat) (st : APState) :
    StepResult :=
  let a := aget args i
  let oc := ctx.oracle
  if a.key = "--ccache-skip" then
    .ok ctx args i (st.pushCommon [Arg.fromToken a.value])
  else if a.full = "-E" then
    .err .called_for_preprocessing
  else if sStarts a.full "@" ∨ sStarts a.full "-@" then
    let argpath := if sFirst a.full = '-' then sDrop a.full 2 else sDrop a.full 1
    match oc.atfile argpath with
    | none => .err .bad_compiler_arguments
    | some toks =>
      .ok ctx (args.take i ++ toks.map Arg.fromToken ++ args.drop (i + 1))
        (i - 1) st
  else if ctx.guessed_compiler = GuessedCompiler.nvcc ∧
      (a.key = "-optf" ∨ a.key = "--options-file") then
    match insertOptionsFiles ctx i (splitOnChar ',' a.value).reverse args with
    | none => .err .bad_compiler_arguments
    | some args2 => .ok ctx args2 i st
  else if oc.tooHard a.full ∨ sStarts a.full "-fdump-" ∨ sStarts a.full "-MJ" then
    .err .unsupported_compiler_option
  else processArgRest ctx args i st

/-! ### `handle_dependency_environment_variables` and `process_args` -/

/-- `handle_dependency_environment_variables` (lines 812-867). The
`setenv` re-export is a side effect outside the model (spec section 5 calls
it idempotent); everything else is transcribed. -/
def handleDependencyEnvVars (ctx : Ctx) (st : APState) : Ctx × APState :=
  let oc := ctx.oracle
  let depEnv :=
    match oc.envDependenciesOutput with
    | some v => some v
    | none => oc.envSunproDependencies
  match depEnv with
  | none => (ctx, st)
  | some v =>
    let info1 := ctx.args_info.withGenDeps true
    let st1 := st.withDepFileSpec true
    let deps := splitOnChar ' ' v
    let info2 :=
      match deps.head? with
      | some f => info1.withOutputDep (oc.relpath f)
      | none => info1
    if deps.length > 1 then
      (ctx.withInfo (info2.withDepTargetSpec true), st1)
    else
      (ctx.withInfo info2, st1.withDepImplicitTarget true)

/-- Modelled from the spec: `Util::is_precompiled_header` (not under the
surveyed source) — the path has a known PCH extension. -/
def isPrecompiledHeader (path : String) : Bool :=
  sEnds path ".gch" || sEnds path ".pch" || sEnds path ".pth"

/-- Modelled from the spec: `Util::base_name` — the path after the last
slash. -/
def baseName (path : String) : String :=
  ⟨(path.data.reverse.takeWhile (· ≠ '/')).reverse⟩

/-- Modelled from the spec: `Util::change_extension` — strip the base name
from its last dot, then append the new extension. -/
def changeExtension (path ext : String) : String :=
  let rev := path.data.reverse
  let base := rev.takeWhile (· ≠ '/')
  let stripped :=
    if base.contains '.' then (rev.dropWhile (· ≠ '.')).drop 1 else rev
  String.mk stripped.reverse ++ ext

/-- Modelled from the spec: `Util::dir_name` — the path up to the last
slash, `"."` when there is none. -/
def dirName (path : String) : String :=
  if path.data.contains '/' then
    let d := ((path.data.reverse.dropWhile (· ≠ '/')).drop 1).reverse
    if d = [] then "/" else ⟨d⟩
  else "."

/-- Result of the `process_arg` loop. -/
inductive LoopResult
  | err : Statistic → LoopResult
  | done : Ctx → List Arg → APState → LoopResult
  | spin : LoopResult

/-- The `for (size_t i = 1; i < args.size(); i++)` loop of `process_args`
(lines 897-902), fuelled because `@file` expansion can grow `args`. -/
def processLoop : Nat → Ctx → List Arg → Nat → APState → LoopResult
  | 0, _, _, _, _ => .spin
  | fuel + 1, ctx, args, i, st =>
    if i < args.length then
      match processArg ctx args i st with
      | .err s => .err s
      | .ok ctx1 args1 i1 st1 => processLoop fuel ctx1 args1 (i1 + 1) st1
    else .done ctx args st

/-- The successful outcome of `process_args`: the returned triple together
with the final internal vectors, flags, `ArgsInfo` and `Config`, which the
stated invariants refer to. -/
structure POut where
  preprocessor_args : List Arg
  extra_args_to_hash : List Arg
  compiler_args : List Arg
  common_args : List Arg
  cpp_args : List Arg
  dep_args : List Arg
  compiler_only_args : List Arg
  compiler_args_base : List Arg
  compiler_args_nodep : List Arg
  found_c_opt : Bool
  found_dc_opt : Bool
  found_S_opt : Bool
  info : ArgsInfo
  config : Config
deriving DecidableEq, Repr, Inhabited

/-- `ProcessArgsResult`: a statistic or the triple (plus snapshots);
`spin` is fuel exhaustion of the model's loop, `abort` the violated
`ASSERT(!ctx.orig_args.empty())`. -/
inductive PResult
  | err : Statistic → PResult
  | out : POut → PResult
  | spin : PResult
  | abort : PResult
deriving DecidableEq, Repr, Inhabited

/-- The final assembly of the three returned vectors
(lines 1113-1174 of `process_args`). -/
def assembleOut (pLang : String → String) (cfg : Config) (info : ArgsInfo)
    (st9 : APState) : POut :=
  let compiler0 := st9.common_args ++ st9.compiler_only_args
  let cc :=
    if cfg.run_second_cpp then
      (st9.cpp_args, compiler0 ++ st9.cpp_args)
    else if st9.found_directives_only ∨ st9.found_rewrite_includes then
      let base := compiler0 ++ st9.cpp_args
      let (cppA, compA) :=
        if st9.found_directives_only then
          (st9.cpp_args ++ [Arg.fromToken "-fdirectives-only"],
            base ++ [Arg.fromToken "-fpreprocessed", Arg.fromToken "-fdirectives-only"])
        else (st9.cpp_args, base)
      if st9.found_rewrite_includes then
        (cppA ++ [Arg.fromToken "-frewrite-includes"],
          compA ++ [Arg.fromToken "-x", Arg.fromToken info.actual_language])
      else (cppA, compA)
    else if st9.explicit_language ≠ "" then
      (st9.cpp_args,
        compiler0 ++ [Arg.fromToken "-x", Arg.fromToken (pLang st9.explicit_language)])
    else (st9.cpp_args, compiler0)
  let cppF := cc.1
  let compiler1 := cc.2
  let markers :=
    (if st9.found_c_opt then [Arg.fromToken "-c"] else []) ++
      (if st9.found_dc_opt then [Arg.fromToken "-dc"] else [])
  let archPairs :=
    (info.arch_args.map (fun v => [Arg.fromToken "-arch", Arg.fromToken v])).flatten
  let compilerNoDep := compiler1 ++ markers ++ archPairs
  let pre0 := st9.common_args ++ cppF
  { preprocessor_args := if cfg.run_second_cpp then pre0 else pre0 ++ st9.dep_args
    extra_args_to_hash :=
      st9.compiler_only_args ++ (if cfg.run_second_cpp then st9.dep_args else [])
    compiler_args :=
      if cfg.run_second_cpp then compilerNoDep ++ st9.dep_args else compilerNoDep
    common_args := st9.common_args
    cpp_args := cppF
    dep_args := st9.dep_args
    compiler_only_args := st9.compiler_only_args
    compiler_args_base := compiler1
    compiler_args_nodep := compilerNoDep
    found_c_opt := st9.found_c_opt
    found_dc_opt := st9.found_dc_opt
    found_S_opt := st9.found_S_opt
    info := info
    config := cfg }

/-- Post-loop fixup 1 and 2 (lines 904-909): debug level 3 forces
`run_second_cpp`, then the dependency environment variables are applied. -/
def postDebugEnv (ctx0 : Ctx) (st0 : APState) : Ctx × APState :=
  let cfg1 :=
    if st0.generating_debuginfo_level_3 ∧ ¬ ctx0.config.run_second_cpp then
      { ctx0.config with run_second_cpp := true }
    else ctx0.config
  handleDependencyEnvVars { ctx0 with config := cfg1 } st0

/-- Lines 911-943: input-file presence, PCH time-macros sloppiness, default
profile path and language normalization. -/
def postLang (ctx : Ctx) (st : APState) : Except Statistic (Ctx × APState) :=
  if ctx.args_info.input_file = "" then .error .no_input_file
  else
    let usedPch := st.found_pch ∨ st.found_fpch_preprocess
    let info1 := if usedPch then ctx.args_info.withUsingPch true else ctx.args_info
    if usedPch ∧ ¬ ctx.config.sloppy_time_macros then
      .error .could_not_use_precompiled_header
    else
      let info2 :=
        if info1.profile_path = "" then info1.withProfilePath ctx.apparent_cwd
        else info1
      let st2 :=
        if st.explicit_language ≠ "" ∧ st.explicit_language = "none" then
          st.withExplicitLang ""
        else st
      let st3 := st2.withFileLang (ctx.oracle.languageForFile info2.input_file)
      if st3.explicit_language ≠ "" ∧
          ¬ ctx.oracle.languageIsSupported st3.explicit_language then
        .error .unsupported_source_language
      else
        let info3 :=
          if st3.explicit_language ≠ "" then info2.withActualLang st3.explicit_language
          else info2.withActualLang st3.file_language
        .ok (ctx.withInfo info3, st3)

/-- Lines 945-997: precompiled-header output detection, the `-c`/`-dc`/`-S`
requirement, language support, `run_second_cpp` forcing for CUDA and PCH,
`direct_i_file` and the default `cpp_extension`. -/
def postPchLang (ctx : Ctx) (st : APState) : Except Statistic (Ctx × APState) :=
  let oc := ctx.oracle
  let info4 :=
    ctx.args_info.withOutputIsPch
      (sHasSub ctx.args_info.actual_language "-header" ||
        isPrecompiledHeader ctx.args_info.output_obj)
  if info4.output_is_precompiled_header = true ∧ ¬ ctx.config.sloppy_pch_defines then
    .error .could_not_use_precompiled_header
  else
    let noCOpt := ¬ st.found_c_opt ∧ ¬ st.found_dc_opt ∧ ¬ st.found_S_opt
    if noCOpt ∧ info4.output_is_precompiled_header = false then
      if sHasSub info4.input_file "conftest." then .error .autoconf_test
      else .error .called_for_link
    else
      let st4 := if noCOpt then st.pushCommon [Arg.fromToken "-c"] else st
      if info4.actual_language = "" then .error .unsupported_source_language
      else
        let cfg2 :=
          if !ctx.config.run_second_cpp && info4.actual_language == "cu" then
            ctx.config.withRsc true
          else ctx.config
        let info5 := info4.withDirectIFile (oc.languageIsPreprocessed info4.actual_language)
        let cfg3 :=
          if info5.output_is_precompiled_header && !cfg2.run_second_cpp then
            cfg2.withRsc true
          else cfg2
        let cfg4 :=
          if cfg3.cpp_extension = "" then
            cfg3.withCppExt
              (sDrop
                (oc.extensionForLanguage
                  (oc.pLanguageForLanguage info5.actual_language)) 1)
          else cfg3
        .ok ((ctx.withInfo info5).withConfig cfg4, st4)

/-- Lines 993-1033: output-object handling — `-o -`, the default object
name, split-dwarf naming, and the stat checks on the output file and its
directory. -/
def postOutput (ctx : Ctx) (st : APState) : Except Statistic (Ctx × APState) :=
  let oc := ctx.oracle
  let info5 := ctx.args_info
  if info5.output_obj = "-" then .error .output_to_stdout
  else
    let info6 :=
      if info5.output_obj = "" then
        if info5.output_is_precompiled_header then
          info5.withOutputObj (info5.input_file ++ ".gch")
        else
          info5.withOutputObj
            (changeExtension (baseName info5.input_file)
              (if st.found_S_opt then ".s" else ".o"))
      else info5
    if info6.seen_split_dwarf ∧
        (¬ info6.output_obj.data.contains '.' ∨ sBack info6.output_obj = '.') then
      .error .bad_compiler_arguments
    else
      let info7 :=
        if info6.seen_split_dwarf then
          info6.withOutputDwo (changeExtension info6.output_obj ".dwo")
        else info6
      let badObj : Bool :=
        info7.output_obj != "/dev/null" &&
          (match oc.stat info7.output_obj with
           | some stt => !stt.is_regular
           | none => false)
      if badObj then .error .bad_output_file
      else
        let badDir : Bool :=
          match oc.stat (dirName info7.output_obj) with
          | some stt => !stt.is_directory
          | none => true
        if badDir then .error .bad_output_file
        else .ok (ctx.withInfo info7, st)

/-- Lines 1040-1049: re-emission of `-finput-charset`, `-fpch-preprocess`
and `-x <lang>` into `cpp_args`. -/
def postCppAdditions (st4 : APState) : APState :=
  let st5 :=
    if st4.input_charset_option ≠ "" then
      st4.pushCpp [Arg.fromToken st4.input_charset_option]
    else st4
  let st6 :=
    if st5.found_pch then st5.pushCpp [Arg.fromToken "-fpch-preprocess"] else st5
  if st6.explicit_language ≠ "" then
    st6.pushCpp [Arg.fromToken "-x", Arg.fromToken st6.explicit_language]
  else st6

/-- Lines 1051-1074: `strip_diagnostics_colors` and forced color
diagnostics for Clang and GCC. -/
def postColors (ctx : Ctx) (st7 : APState) : Ctx × APState :=
  let strip0 : Bool :=
    if st7.color_diagnostics ≠ ColorDiagnostics.automatic then
      st7.color_diagnostics == ColorDiagnostics.never
    else !ctx.oracle.colorTty
  let info8 := ctx.args_info.withStripColors strip0
  if ctx.guessed_compiler = GuessedCompiler.clang then
    if info8.actual_language ≠ "assembler" then
      let stc :=
        if ¬ ctx.config.run_second_cpp then
          st7.pushCpp [Arg.fromToken "-fcolor-diagnostics"]
        else st7
      let stc2 := stc.pushComponly [Arg.fromToken "-fcolor-diagnostics"]
      let infoc :=
        if ctx.config.depend_mode then info8.pushDependExtra "-fcolor-diagnostics"
        else info8
      (ctx.withInfo infoc, stc2)
    else (ctx.withInfo info8, st7)
  else if ctx.guessed_compiler = GuessedCompiler.gcc then
    let stc :=
      if ¬ ctx.config.run_second_cpp then
        st7.pushCpp [Arg.fromToken "-fdiagnostics-color"]
      else st7
    let stc2 := stc.pushComponly [Arg.fromToken "-fdiagnostics-color"]
    let infoc :=
      if ctx.config.depend_mode then info8.pushDependExtra "-fdiagnostics-color"
      else info8
    (ctx.withInfo infoc, stc2)
  else
    (ctx.withInfo (info8.withStripColors false), st7)

/-- Lines 1076-1111: default dependency file and target, coverage and
stack-usage outputs. -/
def postDepsFile (ctx : Ctx) (st8 : APState) : ArgsInfo × APState :=
  if ¬ st8.dependency_filename_specified then
    let defaultDep := changeExtension ctx.args_info.output_obj ".d"
    let infod1 := ctx.args_info.withOutputDep (ctx.oracle.relpath defaultDep)
    if ¬ ctx.config.run_second_cpp then
      (infod1, st8.pushDep [Arg.fromToken "-MF", Arg.fromToken defaultDep])
    else (infod1, st8)
  else (ctx.args_info, st8)

def postDepsTarget (rsc : Bool) (infod : ArgsInfo) (std : APState) :
    ArgsInfo × APState :=
  if ¬ infod.dependency_target_specified ∧
      ¬ std.dependency_implicit_target_specified ∧ ¬ rsc then
    (infod, std.pushDep [Arg.fromToken "-MQ", Arg.fromToken infod.output_obj])
  else (infod, std)

def postDeps (ctx : Ctx) (st8 : APState) : Ctx × APState :=
  let r :=
    if ctx.args_info.generating_dependencies then
      postDepsTarget ctx.config.run_second_cpp (postDepsFile ctx st8).1
        (postDepsFile ctx st8).2
    else (ctx.args_info, st8)
  let info11 :=
    if r.1.generating_coverage then
      r.1.withOutputCov (ctx.oracle.relpath (changeExtension r.1.output_obj ".gcno"))
    else r.1
  let info12 :=
    if info11.generating_stackusage then
      info11.withOutputSu (ctx.oracle.relpath (changeExtension info11.output_obj ".su"))
    else info11
  (ctx.withInfo info12, r.2)

/-- Lines 904-1174 of `process_args`: post-loop fixups and final assembly. -/
def processArgsAfterLoop (ctx0 : Ctx) (st0 : APState) : PResult :=
  let (c1, s1) := postDebugEnv ctx0 st0
  match postLang c1 s1 with
  | .error e => .err e
  | .ok (c2, s2) =>
    match postPchLang c2 s2 with
    | .error e => .err e
    | .ok (c3, s3) =>
      match postOutput c3 s3 with
      | .error e => .err e
      | .ok (c4, s4) =>
        let (c5, s5) := postColors c4 (postCppAdditions s4)
        let (c6, s6) := postDeps c5 s5
        .out (assembleOut c6.oracle.pLanguageForLanguage c6.config c6.args_info s6)

/-- `process_args` (lines 871-1175): fuse registered parameters, seed
`common_args` with the compiler, loop over the arguments, then run the
post-loop fixups and final assembly. -/
def processArgsFull (fuel : Nat) (ctx : Ctx) : PResult :=
  if ctx.orig_args = [] then .abort
  else
    match processLoop fuel ctx (addParams ccacheParams ctx.orig_args) 1
        { common_args := [aget (addParams ccacheParams ctx.orig_args) 0] } with
    | .err s => .err s
    | .spin => .spin
    | .done ctx1 _ st1 => processArgsAfterLoop ctx1 st1

/-! ### A concrete test instance

A small concrete oracle used to evaluate the model on the spec's concrete
scenarios. File system: `foo.c` is a regular file, `.` is a directory.
The classification tables answer `false` everywhere (none of the options in
the scenarios below are table-classified); the language tables are modelled
from the spec for the single language involved: `.c` files are C, whose
preprocessed form is `cpp-output` with extension `.i`. -/
def testOracle : Oracle where
  stat p :=
    if p = "foo.c" then some ⟨true, false⟩
    else if p = "." then some ⟨false, true⟩
    else none
  relpath p := p
  atfile _ := none
  tooHard _ := false
  tooHardDirect _ := false
  affectsComp _ := false
  prefixAffectsComp _ := false
  affectsCpp _ := false
  prefixAffectsCpp _ := false
  takesArg _ := false
  takesConcatArg _ := false
  takesPath _ := false
  languageForFile p := if sEnds p ".c" then "c" else ""
  languageIsSupported l := l == "c"
  languageIsPreprocessed l := l == "cpp-output"
  pLanguageForLanguage l := if l == "c" then "cpp-output" else l
  extensionForLanguage l := if l == "cpp-output" then ".i" else ""
  envDependenciesOutput := none
  envSunproDependencies := none
  colorTty := false

/-- Build a context from raw tokens with the test oracle. -/
def testCtx (toks : List String) (rsc : Bool) : Ctx where
  orig_args := toks.map Arg.fromToken
  guessed_compiler := .unknown
  apparent_cwd := "/cwd"
  oracle := testOracle
  config := { run_second_cpp := rsc }

/-- Projection of a successful result, used to name concrete outputs in
witnesses. -/
def outOf (r : PResult) : POut :=
  match r with
  | .out o => o
  | _ => default

/-- The concrete output of the C1 witness scenario. -/
def c1Out : POut :=
  outOf (processArgsFull 60 (testCtx ["cc", "-MD", "-c", "foo.c"] false))

/-- The concrete output of the C2 scenario `cc -c -MD foo.c` with
`run_second_cpp` left true. -/
def c2Out : POut :=
  outOf (processArgsFull 60 (testCtx ["cc", "-c", "-MD", "foo.c"] true))

/-- The concrete output of the C7 scenario in which `-o` swallows
`-fprofile-generate`, so only the profile-use option is processed. -/
def c7Out : POut :=
  outOf (processArgsFull 60
    (testCtx ["cc", "-o", "-fprofile-generate", "-fprofile-use", "foo.c", "-c"]
      true))

theorem fromToken_WF (s : String) : (Arg.fromToken s).WF := by
  unfold Arg.fromToken
  cases h : findEq s.data with
  | none => exact ⟨rfl, rfl⟩
  | some i =>
    show Arg.WF _
    unfold Arg.WF
    show s = String.mk (s.data.take i) ++ "=" ++ String.mk (s.data.drop (i + 1))
    apply String.ext
    rw [show ("=" : String) = String.mk ['='] from rfl, sep_append_data]
    rw [string_data_mk, string_data_mk]
    exact findEq_take_drop _ _ h

theorem chPre_of_append (p rest : List Char) : chPre p (p ++ rest) = true := by
  induction p with
  | nil => exact chPre_nil _
  | cons x xs ih => simp [chPre, ih]

/-- The key slice of a well-formed `Arg` is a prefix of its full form. -/
theorem arg_key_pre (a : Arg) (hwf : a.WF) : chPre a.key.data a.full.data = true := by
  unfold Arg.WF at hwf
  cases h : a.split_tag with
  | not_split =>
    rw [h] at hwf
    rw [hwf.1]
    exact chPre_nil _
  | equal_sign =>
    rw [h] at hwf
    rw [hwf, String.data_append, String.data_append, List.append_assoc]
    exact chPre_of_append _ _
  | space =>
    rw [h] at hwf
    rw [hwf, String.data_append, String.data_append, List.append_assoc]
    exact chPre_of_append _ _
  | written_together =>
    rw [h] at hwf
    rw [hwf, String.data_append, String.data_append, List.append_assoc]
    exact chPre_of_append _ _

/-- A well-formed `Arg` whose full form does not start with `t` does not
have key `t`. -/
theorem arg_key_ne (a : Arg) (hwf : a.WF) (t : String)
    (h : chPre t.data a.full.data = false) : a.key ≠ t := by
  intro he
  rw [← he, arg_key_pre a hwf] at h
  exact Bool.noConfusion h

/-- A successful prefix test exposes the string as the prefix plus a rest. -/
theorem chPre_exists (p s : List Char) (h : chPre p s = true) :
    ∃ r, s = p ++ r := by
  induction p generalizing s with
  | nil => exact ⟨s, rfl⟩
  | cons x xs ih =>
    cases s with
    | nil => exact Bool.noConfusion h
    | cons c cs =>
      have hx : x = c ∧ chPre xs cs = true := by
        simpa [chPre, Bool.and_eq_true] using h
      obtain ⟨r, hr⟩ := ih cs hx.2
      exact ⟨r, by rw [hx.1, hr, List.cons_append]⟩

/-- A prefix test against a pattern whose first character differs from the
string's first character fails. -/
theorem chPre_head_ne (c0 : Char) (rest s : List Char)
    (h : s.headD '\x00' ≠ c0) : chPre (c0 :: rest) s = false := by
  cases s with
  | nil => rfl
  | cons c cs =>
    have hb : (c0 == c) = false :=
      beq_eq_false_iff_ne.mpr (fun he => h (by simp [List.headD, he]))
    simp [chPre, hb]

/-- `handle_dependency_environment_variables` never touches the
configuration. -/
theorem handleDependencyEnvVars_config (c : Ctx) (s : APState) :
    (handleDependencyEnvVars c s).1.config = c.config := by
  unfold handleDependencyEnvVars
  simp only []
  split
  · rfl
  · split <;> simp [Ctx.withInfo]

theorem findEq_append_isSome (a b : List Char) :
    (findEq (a ++ '=' :: b)).isSome = true := by
  induction a with
  | nil => simp [findEq]
  | cons x xs ih =>
    by_cases hx : x = '='
    · simp [findEq, hx]
    · obtain ⟨j, hj⟩ := Option.isSome_iff_exists.mp ih
      simp [findEq, hx, hj]

/-- C9. For all strings `k` and `v`, constructing an Arg from the raw token
`k + "=" + v` with `from_token` yields an Arg equal — under Arg equality,
which compares the full string and the split tag — to the Arg constructed
from the explicit triple `(k, equal_sign, v)` with `from_parts`. -/
theorem c9_fromToken_fromParts_roundtrip (k v : String) :
    Arg.beq (Arg.fromToken (k ++ "=" ++ v)) (Arg.fromParts k .equal_sign v) = true := by
  have hdata : (k ++ "=" ++ v).data = k.data ++ '=' :: v.data := by
    rw [show ("=" : String) = String.mk ['='] from rfl, sep_append_data]
  have hsome : (findEq (k ++ "=" ++ v).data).isSome = true := by
    rw [hdata]
    exact findEq_append_isSome _ _
  obtain ⟨i, hi⟩ := Option.isSome_iff_exists.mp hsome
  unfold Arg.beq Arg.fromToken Arg.fromParts
  rw [hi]
  simp [ArgSplit.sep]

/-- C10. Copy construction and copy assignment of a (well-formed) `Arg`
produce an Arg with the same full string, split tag, key and value — hence
one equal to the original — whether or not the source has been split. -/
theorem c10_copy_exact (a : Arg) (hwf : a.WF) :
    a.copy.full = a.full ∧ a.copy.split_tag = a.split_tag ∧
      a.copy.key = a.key ∧ a.copy.value = a.value ∧ Arg.beq a.copy a = true := by
  obtain ⟨f, sc, k, v⟩ := a
  unfold Arg.WF at hwf
  cases sc with
  | not_split =>
    obtain ⟨hk, hv⟩ := hwf
    subst hk
    subst hv
    refine ⟨rfl, rfl, rfl, rfl, ?_⟩
    simp [Arg.copy, Arg.has_been_split, Arg.beq]
  | equal_sign =>
    have hf : f = k ++ "=" ++ v := hwf
    subst hf
    have hcopy : Arg.copy ⟨k ++ "=" ++ v, .equal_sign, k, v⟩ =
        ⟨k ++ "=" ++ v, .equal_sign, sTake (k ++ "=" ++ v) k.data.length,
          sDrop (k ++ "=" ++ v) (k.data.length + 1)⟩ := by
      simp [Arg.copy, Arg.has_been_split]
    rw [hcopy]
    refine ⟨rfl, rfl, ?_, ?_, by simp [Arg.beq]⟩
    · show sTake (k ++ "=" ++ v) k.data.length = k
      apply String.ext
      show ((k ++ "=" ++ v).data.take k.data.length) = k.data
      rw [show ("=" : String) = String.mk ['='] from rfl, sep_append_data]
      exact take_append_eq k.data ('=' :: v.data)
    · show sDrop (k ++ "=" ++ v) (k.data.length + 1) = v
      apply String.ext
      show ((k ++ "=" ++ v).data.drop (k.data.length + 1)) = v.data
      rw [show ("=" : String) = String.mk ['='] from rfl, sep_append_data]
      exact drop_append_succ _ _ _
  | space =>
    have hf : f = k ++ " " ++ v := hwf
    subst hf
    have hcopy : Arg.copy ⟨k ++ " " ++ v, .space, k, v⟩ =
        ⟨k ++ " " ++ v, .space, sTake (k ++ " " ++ v) k.data.length,
          sDrop (k ++ " " ++ v) (k.data.length + 1)⟩ := by
      simp [Arg.copy, Arg.has_been_split]
    rw [hcopy]
    refine ⟨rfl, rfl, ?_, ?_, by simp [Arg.beq]⟩
    · show sTake (k ++ " " ++ v) k.data.length = k
      apply String.ext
      show ((k ++ " " ++ v).data.take k.data.length) = k.data
      rw [show (" " : String) = String.mk [' '] from rfl, sep_append_data]
      exact take_append_eq k.data (' ' :: v.data)
    · show sDrop (k ++ " " ++ v) (k.data.length + 1) = v
      apply String.ext
      show ((k ++ " " ++ v).data.drop (k.data.length + 1)) = v.data
      rw [show (" " : String) = String.mk [' '] from rfl, sep_append_data]
      exact drop_append_succ _ _ _
  | written_together =>
    have hf : f = k ++ "" ++ v := hwf
    subst hf
    have hcopy : Arg.copy ⟨k ++ "" ++ v, .written_together, k, v⟩ =
        ⟨k ++ "" ++ v, .written_together, sTake (k ++ "" ++ v) k.data.length,
          sDrop (k ++ "" ++ v) (k.data.length + 0)⟩ := by
      simp [Arg.copy, Arg.has_been_split]
    rw [hcopy]
    refine ⟨rfl, rfl, ?_, ?_, by simp [Arg.beq]⟩
    · show sTake (k ++ "" ++ v) k.data.length = k
      apply String.ext
      show ((k ++ "" ++ v).data.take k.data.length) = k.data
      rw [String.data_append, String.data_append]
      simp only [show ("" : String).data = [] from rfl, List.append_nil]
      exact take_append_eq k.data v.data
    · show sDrop (k ++ "" ++ v) (k.data.length + 0) = v
      apply String.ext
      show ((k ++ "" ++ v).data.drop (k.data.length + 0)) = v.data
      rw [String.data_append, String.data_append]
      simp only [show ("" : String).data = [] from rfl, List.append_nil]
      exact drop_append_eq k.data v.data

/-- Witness for C10 at concrete inputs: a split Arg (`-MF=x`) and an
unsplit one (`-c`). -/
theorem c10_copy_exact_witness :
    ((Arg.fromToken "-MF=x").WF ∧
      ((Arg.fromToken "-MF=x").copy.full = (Arg.fromToken "-MF=x").full ∧
        (Arg.fromToken "-MF=x").copy.split_tag = (Arg.fromToken "-MF=x").split_tag ∧
        (Arg.fromToken "-MF=x").copy.key = (Arg.fromToken "-MF=x").key ∧
        (Arg.fromToken "-MF=x").copy.value = (Arg.fromToken "-MF=x").value ∧
        Arg.beq (Arg.fromToken "-MF=x").copy (Arg.fromToken "-MF=x") = true)) ∧
    ((Arg.fromToken "-c").WF ∧
      ((Arg.fromToken "-c").copy.full = (Arg.fromToken "-c").full ∧
        (Arg.fromToken "-c").copy.split_tag = (Arg.fromToken "-c").split_tag ∧
        (Arg.fromToken "-c").copy.key = (Arg.fromToken "-c").key ∧
        (Arg.fromToken "-c").copy.value = (Arg.fromToken "-c").value ∧
        Arg.beq (Arg.fromToken "-c").copy (Arg.fromToken "-c") = true)) :=
  ⟨⟨fromToken_WF _, c10_copy_exact _ (fromToken_WF _)⟩,
    ⟨fromToken_WF _, c10_copy_exact _ (fromToken_WF _)⟩⟩

/-! #### `common_args` only ever grows at the tail

These monotonicity lemmas support the invariant that `compiler_args` and
`preprocessor_args` begin with the compiler executable: `common_args` is
seeded with `args[0]` and every later mutation is a `push_back`. -/

set_option maxHeartbeats 1600000 in
theorem processArgTail_common_mono (ctx : Ctx) (args : List Arg) (i : Nat)
    (st : APState) (c : Ctx) (a : List Arg) (j : Nat) (s : APState)
    (h : processArgTail ctx args i st = .ok c a j s) :
    ∃ t, s.common_args = st.common_args ++ t := by
  unfold processArgTail at h
  simp only [] at h
  repeat' split at h
  all_goals first
    | (injection h with h1 h2 h3 h4
       subst h4
       first
         | exact ⟨[], (List.append_nil _).symm⟩
         | exact ⟨_, rfl⟩)
    | exact StepResult.noConfusion h

set_option maxHeartbeats 1600000 in
theorem processArgPath_common_mono (ctx : Ctx) (args : List Arg) (i : Nat)
    (st : APState) (c : Ctx) (a : List Arg) (j : Nat) (s : APState)
    (h : processArgPath ctx args i st = .ok c a j s) :
    ∃ t, s.common_args = st.common_args ++ t := by
  unfold processArgPath at h
  simp only [] at h
  repeat' split at h
  all_goals first
    | (injection h with h1 h2 h3 h4
       subst h4
       first
         | exact ⟨[], (List.append_nil _).symm⟩
         | exact ⟨_, rfl⟩)
    | exact StepResult.noConfusion h
    | exact processArgTail_common_mono _ _ _ _ _ _ _ _ h

set_option maxHeartbeats 1600000 in
theorem processArgMidC_common_mono (ctx : Ctx) (args : List Arg) (i : Nat)
    (st : APState) (c : Ctx) (a : List Arg) (j : Nat) (s : APState)
    (h : processArgMidC ctx args i st = .ok c a j s) :
    ∃ t, s.common_args = st.common_args ++ t := by
  unfold processArgMidC at h
  simp only [] at h
  repeat' split at h
  all_goals first
    | (injection h with h1 h2 h3 h4
       subst h4
       first
         | exact ⟨[], (List.append_nil _).symm⟩
         | exact ⟨_, rfl⟩)
    | exact StepResult.noConfusion h
    | exact processArgPath_common_mono _ _ _ _ _ _ _ _ h

set_option maxHeartbeats 1600000 in
theorem processArgMidB_common_mono (ctx : Ctx) (args : List Arg) (i : Nat)
    (st : APState) (c : Ctx) (a : List Arg) (j : Nat) (s : APState)
    (h : processArgMidB ctx args i st = .ok c a j s) :
    ∃ t, s.common_args = st.common_args ++ t := by
  unfold processArgMidB at h
  simp only [] at h
  repeat' split at h
  all_goals first
    | (injection h with h1 h2 h3 h4
       subst h4
       first
         | exact ⟨[], (List.append_nil _).symm⟩
         | exact ⟨_, rfl⟩)
    | exact StepResult.noConfusion h
    | exact processArgMidC_common_mono _ _ _ _ _ _ _ _ h

set_option maxHeartbeats 1600000 in
theorem processArgMid_common_mono (ctx : Ctx) (args : List Arg) (i : Nat)
    (st : APState) (c : Ctx) (a : List Arg) (j : Nat) (s : APState)
    (h : processArgMid ctx args i st = .ok c a j s) :
    ∃ t, s.common_args = st.common_args ++ t := by
  unfold processArgMid at h
  simp only [] at h
  repeat' split at h
  all_goals first
    | (injection h with h1 h2 h3 h4
       subst h4
       first
         | exact ⟨[], (List.append_nil _).symm⟩
         | exact ⟨_, rfl⟩)
    | exact StepResult.noConfusion h
    | exact processArgMidB_common_mono _ _ _ _ _ _ _ _ h

set_option maxHeartbeats 1600000 in
theorem processArgMainB_common_mono (ctx : Ctx) (args : List Arg) (i : Nat)
    (st : APState) (c : Ctx) (a : List Arg) (j : Nat) (s : APState)
    (h : processArgMainB ctx args i st = .ok c a j s) :
    ∃ t, s.common_args = st.common_args ++ t := by
  unfold processArgMainB at h
  simp only [] at h
  repeat' split at h
  all_goals first
    | (injection h with h1 h2 h3 h4
       subst h4
       first
         | exact ⟨[], (List.append_nil _).symm⟩
         | exact ⟨_, rfl⟩)
    | exact StepResult.noConfusion h
    | exact processArgMid_common_mono _ _ _ _ _ _ _ _ h

set_option maxHeartbeats 1600000 in
theorem processArgMain_common_mono (ctx : Ctx) (args : List Arg) (i : Nat)
    (st : APState) (c : Ctx) (a : List Arg) (j : Nat) (s : APState)
    (h : processArgMain ctx args i st = .ok c a j s) :
    ∃ t, s.common_args = st.common_args ++ t := by
  unfold processArgMain at h
  simp only [] at h
  repeat' split at h
  all_goals first
    | (injection h with h1 h2 h3 h4
       subst h4
       first
         | exact ⟨[], (List.append_nil _).symm⟩
         | exact ⟨_, rfl⟩)
    | exact StepResult.noConfusion h
    | exact processArgMainB_common_mono _ _ _ _ _ _ _ _ h

set_option maxHeartbeats 1600000 in
theorem processArgRest_common_mono (ctx : Ctx) (args : List Arg) (i : Nat)
    (st : APState) (c : Ctx) (a : List Arg) (j : Nat) (s : APState)
    (h : processArgRest ctx args i st = .ok c a j s) :
    ∃ t, s.common_args = st.common_args ++ t := by
  unfold processArgRest at h
  simp only [] at h
  repeat' split at h
  all_goals first
    | (injection h with h1 h2 h3 h4
       subst h4
       first
         | exact ⟨[], (List.append_nil _).symm⟩
         | exact ⟨_, rfl⟩)
    | exact StepResult.noConfusion h
    | (obtain ⟨t, ht⟩ := processArgMain_common_mono _ _ _ _ _ _ _ _ h
       try simp only [APState.pushCommon, APState.pushCpp, APState.pushComponly] at ht
       first
         | exact ⟨t, ht⟩
         | exact ⟨Arg.fromToken "-Xclang" :: t, by rw [ht]; simp⟩)

set_option maxHeartbeats 1600000 in
theorem processArg_common_mono (ctx : Ctx) (args : List Arg) (i : Nat)
    (st : APState) (c : Ctx) (a : List Arg) (j : Nat) (s : APState)
    (h : processArg ctx args i st = .ok c a j s) :
    ∃ t, s.common_args = st.common_args ++ t := by
  unfold processArg at h
  simp only [] at h
  repeat' split at h
  all_goals first
    | (injection h with h1 h2 h3 h4
       subst h4
       first
         | exact ⟨[], (List.append_nil _).symm⟩
         | exact ⟨_, rfl⟩)
    | exact StepResult.noConfusion h
    | exact processArgRest_common_mono _ _ _ _ _ _ _ _ h

theorem processLoop_common_mono (fuel : Nat) :
    ∀ ctx args i st c a s, processLoop fuel ctx args i st = .done c a s →
      ∃ t, s.common_args = st.common_args ++ t := by
  induction fuel with
  | zero =>
    intro ctx args i st c a s h
    exact LoopResult.noConfusion h
  | succ n ih =>
    intro ctx args i st c a s h
    unfold processLoop at h
    by_cases hlt : i < args.length
    · rw [if_pos hlt] at h
      cases hp : processArg ctx args i st with
      | err e => rw [hp] at h; exact LoopResult.noConfusion h
      | ok c1 a1 i1 s1 =>
        rw [hp] at h
        obtain ⟨t1, ht1⟩ := ih c1 a1 (i1 + 1) s1 c a s h
        obtain ⟨t0, ht0⟩ := processArg_common_mono ctx args i st c1 a1 i1 s1 hp
        exact ⟨t0 ++ t1, by rw [ht1, ht0, List.append_assoc]⟩
    · rw [if_neg hlt] at h
      injection h with h1 h2 h3
      subst h3
      exact ⟨[], (List.append_nil _).symm⟩

theorem handleDependencyEnvVars_common (c : Ctx) (s : APState) :
    ((handleDependencyEnvVars c s).2).common_args = s.common_args := by
  unfold handleDependencyEnvVars
  simp only []
  repeat' split
  all_goals rfl

theorem postLang_common (c : Ctx) (s : APState) (r : Ctx × APState)
    (h : postLang c s = .ok r) : r.2.common_args = s.common_args := by
  unfold postLang at h
  simp only [] at h
  repeat' split at h
  all_goals first
    | exact Except.noConfusion h
    | (injection h with h1; subst h1; rfl)

theorem postPchLang_common_mono (c : Ctx) (s : APState) (r : Ctx × APState)
    (h : postPchLang c s = .ok r) :
    ∃ t, r.2.common_args = s.common_args ++ t := by
  unfold postPchLang at h
  simp only [] at h
  repeat' split at h
  all_goals first
    | exact Except.noConfusion h
    | (injection h with h1
       subst h1
       first
         | exact ⟨[], (List.append_nil _).symm⟩
         | exact ⟨_, rfl⟩)

theorem postOutput_common (c : Ctx) (s : APState) (r : Ctx × APState)
    (h : postOutput c s = .ok r) : r.2.common_args = s.common_args := by
  unfold postOutput at h
  simp only [] at h
  repeat' split at h
  all_goals first
    | exact Except.noConfusion h
    | (injection h with h1; subst h1; rfl)

theorem postCppAdditions_common (s : APState) :
    (postCppAdditions s).common_args = s.common_args := by
  unfold postCppAdditions
  simp only []
  repeat' split
  all_goals rfl

theorem postColors_common (c : Ctx) (s : APState) :
    ((postColors c s).2).common_args = s.common_args := by
  unfold postColors
  simp only []
  repeat' split
  all_goals rfl

theorem postDepsFile_common (c : Ctx) (s : APState) :
    ((postDepsFile c s).2).common_args = s.common_args := by
  unfold postDepsFile
  simp only []
  repeat' split
  all_goals rfl

theorem postDepsTarget_common (rsc : Bool) (x : ArgsInfo) (s : APState) :
    ((postDepsTarget rsc x s).2).common_args = s.common_args := by
  unfold postDepsTarget
  split
  all_goals rfl

theorem postDeps_common (c : Ctx) (s : APState) :
    ((postDeps c s).2).common_args = s.common_args := by
  unfold postDeps
  simp only []
  split
  · rw [postDepsTarget_common, postDepsFile_common]
  · rfl

theorem postDebugEnv_common (c : Ctx) (s : APState) :
    ((postDebugEnv c s).2).common_args = s.common_args := by
  unfold postDebugEnv
  simp only []
  exact handleDependencyEnvVars_common _ _

set_option maxHeartbeats 800000 in
/-- The `common_args` snapshot in a successful post-loop result extends the
loop's final `common_args`. -/
theorem afterLoop_common_mono (c0 : Ctx) (s0 : APState) (o : POut)
    (h : processArgsAfterLoop c0 s0 = .out o) :
    ∃ t, o.common_args = s0.common_args ++ t := by
  unfold processArgsAfterLoop at h
  rcases hde : postDebugEnv c0 s0 with ⟨c1, s1⟩
  rw [hde] at h
  dsimp only [] at h
  cases hpl : postLang c1 s1 with
  | error e =>
    rw [hpl] at h
    exact PResult.noConfusion h
  | ok r2 =>
    rcases r2 with ⟨c2, s2⟩
    rw [hpl] at h
    dsimp only [] at h
    cases hpp : postPchLang c2 s2 with
    | error e =>
      rw [hpp] at h
      exact PResult.noConfusion h
    | ok r3 =>
      rcases r3 with ⟨c3, s3⟩
      rw [hpp] at h
      dsimp only [] at h
      cases hpo : postOutput c3 s3 with
      | error e =>
        rw [hpo] at h
        exact PResult.noConfusion h
      | ok r4 =>
        rcases r4 with ⟨c4, s4⟩
        rw [hpo] at h
        dsimp only [] at h
        rcases hpc : postColors c4 (postCppAdditions s4) with ⟨c5, s5⟩
        rw [hpc] at h
        dsimp only [] at h
        rcases hpd : postDeps c5 s5 with ⟨c6, s6⟩
        rw [hpd] at h
        dsimp only [] at h
        injection h with ho
        subst ho
        obtain ⟨t2, ht2⟩ := postPchLang_common_mono c2 s2 (c3, s3) hpp
        refine ⟨t2, ?_⟩
        show s6.common_args = s0.common_args ++ t2

        have h6 : s6.common_args = s5.common_args := by
          have := postDeps_common c5 s5
          rw [hpd] at this
          exact this
        have h5 : s5.common_args = s4.common_args := by
          have := postColors_common c4 (postCppAdditions s4)
          rw [hpc] at this
          rw [this]
          exact postCppAdditions_common s4
        have h4 : s4.common_args = s3.common_args := by
          have := postOutput_common c3 s3 (c4, s4) hpo
          exact this
        have h2 : s2.common_args = s1.common_args := postLang_common c1 s1 (c2, s2) hpl
        have h1 : s1.common_args = s0.common_args := by
          have := postDebugEnv_common c0 s0
          rw [hde] at this
          exact this
        rw [h6, h5, h4, ht2, h2, h1]

theorem sStarts_self (p : String) : sStarts p p = true := by
  have := chPre_of_append p.data []
  rw [List.append_nil] at this
  exact this

/-- A token that does not begin with a registered parameter name is left in
place by that parameter's fusion pass. -/
theorem fuseParam_cons_head (p : String) (sps : List ArgSplit) (a : Arg)
    (l : List Arg) (hns : sStarts a.full p = false) :
    fuseParam p sps (a :: l) = a :: fuseParam p sps l := by
  have h1 : ¬ (a.split_tag = ArgSplit.not_split ∧ a.full = p ∧ ArgSplit.space ∈ sps) := by
    rintro ⟨-, h2, -⟩
    rw [h2, sStarts_self] at hns
    exact Bool.noConfusion hns
  have h2 : ¬ (a.split_tag = ArgSplit.not_split ∧ sStarts a.full p = true ∧
      a.full ≠ p ∧ ArgSplit.written_together ∈ sps) := by
    rintro ⟨-, h3, -, -⟩
    rw [h3] at hns
    exact Bool.noConfusion hns
  cases l with
  | nil =>
    show (if _ then _ else if _ then _ else [a]) = a :: fuseParam p sps []
    rw [if_neg h1, if_neg h2]
    rfl
  | cons b rest =>
    show (if _ then _ else if _ then _ else a :: fuseParam p sps (b :: rest)) = _
    rw [if_neg h1, if_neg h2]

/-- A token that begins with no registered parameter name stays at the head
of the fused vector. -/
theorem addParams_head (ps : List (String × List ArgSplit)) (a : Arg) :
    ∀ l, (∀ pr ∈ ps, sStarts a.full pr.1 = false) →
      ∃ l2, addParams ps (a :: l) = a :: l2 := by
  induction ps with
  | nil => exact fun l _ => ⟨l, rfl⟩
  | cons pr ps ih =>
    intro l h
    have hstep : addParams (pr :: ps) (a :: l) =
        addParams ps (fuseParam pr.1 pr.2 (a :: l)) := rfl
    rw [hstep, fuseParam_cons_head pr.1 pr.2 a l (h pr (List.mem_cons_self pr ps))]
    exact ih (fuseParam pr.1 pr.2 l) (fun q hq => h q (List.mem_cons_of_mem pr hq))

set_option maxHeartbeats 800000 in
/-- The compiler-args output of the assembly begins with the head of the
final `common_args`. -/
theorem assembleOut_comp_head (p : String → String) (cfg : Config)
    (info : ArgsInfo) (st : APState) (a0 : Arg) (t : List Arg)
    (hc : st.common_args = a0 :: t) :
    (assembleOut p cfg info st).compiler_args.head? = some a0 := by
  unfold assembleOut
  simp only []
  repeat' split
  all_goals simp [hc]

/-- The `-c`/`-dc` markers sit between the assembled base and the `-arch`
pairs, followed only by `dep_args` when `run_second_cpp` is set. -/
theorem assembleOut_comp_structure (p : String → String) (cfg : Config)
    (info : ArgsInfo) (st : APState) :
    (assembleOut p cfg info st).compiler_args =
      (assembleOut p cfg info st).compiler_args_base ++
        ((if (assembleOut p cfg info st).found_c_opt then [Arg.fromToken "-c"] else []) ++
          (if (assembleOut p cfg info st).found_dc_opt then [Arg.fromToken "-dc"] else [])) ++
        ((assembleOut p cfg info st).info.arch_args.map
          (fun v => [Arg.fromToken "-arch", Arg.fromToken v])).flatten ++
        (if (assembleOut p cfg info st).config.run_second_cpp then
          (assembleOut p cfg info st).dep_args
        else []) := by
  by_cases hr : cfg.run_second_cpp <;> simp [assembleOut, hr]

/-- Any successful `processArgsAfterLoop` result is an `assembleOut`. -/
theorem afterLoop_out_inv (c : Ctx) (s : APState) (o : POut)
    (h : processArgsAfterLoop c s = .out o) :
    ∃ p cfg info st, o = assembleOut p cfg info st := by
  unfold processArgsAfterLoop at h
  repeat' split at h
  all_goals first
    | exact PResult.noConfusion h
    | exact ⟨_, _, _, _, (PResult.out.inj h).symm⟩

/-- Any successful `processArgsFull` result is an `assembleOut`. -/
theorem processArgsFull_out_inv (fuel : Nat) (ctx : Ctx) (o : POut)
    (h : processArgsFull fuel ctx = .out o) :
    ∃ p cfg info st, o = assembleOut p cfg info st := by
  unfold processArgsFull at h
  split at h
  · exact PResult.noConfusion h
  · split at h
    · exact PResult.noConfusion h
    · exact PResult.noConfusion h
    · exact afterLoop_out_inv _ _ _ h

/-- Counterexample to C2: on `cc -c -MD foo.c` with `run_second_cpp` true
the returned `compiler_args` is `[cc, -c, -MD]` — its last element is the
dependency option `-MD`, not one of the `-c`/`-dc`/`-S` markers. -/
theorem c2_counterexample :
    processArgsFull 60 (testCtx ["cc", "-c", "-MD", "foo.c"] true) =
        PResult.out c2Out ∧
      c2Out.compiler_args.getLast?.map Arg.full = some "-MD" ∧
      c2Out.compiler_args.getLast?.map Arg.full ≠ some "-c" ∧
      c2Out.compiler_args.getLast?.map Arg.full ≠ some "-dc" ∧
      c2Out.compiler_args.getLast?.map Arg.full ≠ some "-S" := by
  refine ⟨by decide, by decide, by decide, by decide, by decide⟩

/-- C2 (amended). Whenever `process_args` returns the triple, and the first
original token is not a registered fusion parameter, `compiler_args` begins
with the compiler executable (the first element of the original argument
vector); the `-c`/`-dc` markers derived from the observed input options are
appended after all other option groups, followed only by the `-arch` pairs
and, when `run_second_cpp` is true, by `dep_args` — so the marker is the
last element only when there are no arch arguments and no trailing
`dep_args`. -/
theorem c2_compiler_args_shape (fuel : Nat) (ctx : Ctx) (o : POut) (a0 : Arg)
    (h : processArgsFull fuel ctx = .out o)
    (h0 : ctx.orig_args.head? = some a0)
    (hp : ∀ pr ∈ ccacheParams, sStarts a0.full pr.1 = false) :
    o.compiler_args.head? = some a0 ∧
      o.compiler_args =
        o.compiler_args_base ++
          ((if o.found_c_opt then [Arg.fromToken "-c"] else []) ++
            (if o.found_dc_opt then [Arg.fromToken "-dc"] else [])) ++
          (o.info.arch_args.map
            (fun v => [Arg.fromToken "-arch", Arg.fromToken v])).flatten ++
          (if o.config.run_second_cpp then o.dep_args else []) := by
  constructor
  · -- head part
    obtain ⟨l, hl⟩ : ∃ l, ctx.orig_args = a0 :: l := by
      cases harg : ctx.orig_args with
      | nil => rw [harg] at h0; exact Option.noConfusion h0
      | cons x xs =>
        rw [harg] at h0
        exact ⟨xs, by rw [(Option.some.inj h0).symm]⟩
    obtain ⟨l2, hl2⟩ := addParams_head ccacheParams a0 l hp
    unfold processArgsFull at h
    rw [if_neg (by rw [hl]; exact List.cons_ne_nil a0 l)] at h
    cases hloop : processLoop fuel ctx (addParams ccacheParams ctx.orig_args) 1
        { common_args := [aget (addParams ccacheParams ctx.orig_args) 0] } with
    | err e => rw [hloop] at h; exact PResult.noConfusion h
    | spin => rw [hloop] at h; exact PResult.noConfusion h
    | done c1 a1 s1 =>
      rw [hloop] at h
      obtain ⟨t1, ht1⟩ := processLoop_common_mono fuel ctx
        (addParams ccacheParams ctx.orig_args) 1
        { common_args := [aget (addParams ccacheParams ctx.orig_args) 0] } c1 a1 s1 hloop
      obtain ⟨t2, ht2⟩ := afterLoop_common_mono c1 s1 o h
      have hhead : aget (addParams ccacheParams ctx.orig_args) 0 = a0 := by
        rw [hl, hl2]
        rfl
      have hcommon : o.common_args = a0 :: (t1 ++ t2) := by
        rw [ht2, ht1]
        show [aget (addParams ccacheParams ctx.orig_args) 0] ++ t1 ++ t2 = _
        rw [hhead]
        simp
      obtain ⟨p, cfg, info, st, ho⟩ := afterLoop_out_inv c1 s1 o h
      have hc : st.common_args = a0 :: (t1 ++ t2) := by
        rw [← hcommon, ho]
        rfl
      rw [ho]
      exact assembleOut_comp_head p cfg info st a0 (t1 ++ t2) hc
  · -- marker placement part
    obtain ⟨p, cfg, info, st, ho⟩ := processArgsFull_out_inv fuel ctx o h
    rw [ho]
    exact assembleOut_comp_structure p cfg info st

/-- Witness for the amended C2 at the counterexample scenario input. -/
theorem c2_compiler_args_shape_witness :
    (processArgsFull 60 (testCtx ["cc", "-c", "-MD", "foo.c"] true) =
        PResult.out c2Out ∧
      (testCtx ["cc", "-c", "-MD", "foo.c"] true).orig_args.head? =
        some (Arg.fromToken "cc") ∧
      (∀ pr ∈ ccacheParams, sStarts (Arg.fromToken "cc").full pr.1 = false)) ∧
    (c2Out.compiler_args.head? = some (Arg.fromToken "cc") ∧
      c2Out.compiler_args =
        c2Out.compiler_args_base ++
          ((if c2Out.found_c_opt then [Arg.fromToken "-c"] else []) ++
            (if c2Out.found_dc_opt then [Arg.fromToken "-dc"] else [])) ++
          (c2Out.info.arch_args.map
            (fun v => [Arg.fromToken "-arch", Arg.fromToken v])).flatten ++
          (if c2Out.config.run_second_cpp then c2Out.dep_args else [])) :=
  ⟨⟨by decide, by decide, by decide⟩,
    c2_compiler_args_shape 60 (testCtx ["cc", "-c", "-MD", "foo.c"] true) c2Out
      (Arg.fromToken "cc") (by decide) (by decide) (by decide)⟩

/-- C1. Whenever `process_args` returns the triple: if `run_second_cpp` is
true at the end of processing, `dep_args` is appended to `compiler_args` and
to `extra_args_to_hash` (which is `compiler_only_args ++ dep_args`) and
`preprocessor_args` is exactly `common_args` followed by `cpp_args`; if
`run_second_cpp` is false, `preprocessor_args` is
`common_args ++ cpp_args ++ dep_args`, `compiler_args` carries no `dep_args`
suffix (it equals the dep-free assembly), and `extra_args_to_hash` is
exactly `compiler_only_args`. -/
theorem c1_final_assembly (fuel : Nat) (ctx : Ctx) (o : POut)
    (h : processArgsFull fuel ctx = .out o) :
    (o.config.run_second_cpp = true →
      o.preprocessor_args = o.common_args ++ o.cpp_args ∧
      o.extra_args_to_hash = o.compiler_only_args ++ o.dep_args ∧
      o.compiler_args = o.compiler_args_nodep ++ o.dep_args) ∧
    (o.config.run_second_cpp = false →
      o.preprocessor_args = o.common_args ++ o.cpp_args ++ o.dep_args ∧
      o.extra_args_to_hash = o.compiler_only_args ∧
      o.compiler_args = o.compiler_args_nodep) := by
  obtain ⟨p, cfg, info, st, rfl⟩ := processArgsFull_out_inv fuel ctx o h
  constructor <;> intro hrsc
  · have hc : cfg.run_second_cpp = true := hrsc
    refine ⟨?_, ?_, ?_⟩ <;> simp [assembleOut, hc]
  · have hc : cfg.run_second_cpp = false := hrsc
    refine ⟨?_, ?_, ?_⟩ <;> simp [assembleOut, hc]

/-- Witness for C1: the spec's dependency scenario with
`run_second_cpp = false` evaluates to a triple on which the theorem's
conclusions hold. -/
theorem c1_final_assembly_witness :
    (processArgsFull 60 (testCtx ["cc", "-MD", "-c", "foo.c"] false) =
        PResult.out (c1Out) ∧
      ((c1Out.config.run_second_cpp = true →
        c1Out.preprocessor_args = c1Out.common_args ++ c1Out.cpp_args ∧
        c1Out.extra_args_to_hash = c1Out.compiler_only_args ++ c1Out.dep_args ∧
        c1Out.compiler_args = c1Out.compiler_args_nodep ++ c1Out.dep_args) ∧
      (c1Out.config.run_second_cpp = false →
        c1Out.preprocessor_args = c1Out.common_args ++ c1Out.cpp_args ++ c1Out.dep_args ∧
        c1Out.extra_args_to_hash = c1Out.compiler_only_args ∧
        c1Out.compiler_args = c1Out.compiler_args_nodep))) :=
  ⟨by decide,
    c1_final_assembly 60 (testCtx ["cc", "-MD", "-c", "foo.c"] false) c1Out (by decide)⟩

set_option maxHeartbeats 1600000 in
/-- C4. For every processed argument whose key is `-MF` (space, `=` or
written-together form, i.e. any well-formed Arg with key `-MF`), and which
no earlier table-driven dispatch rule captures, `process_arg` sets
`dependency_filename_specified`, relativizes the value, and pushes to
`dep_args` an Arg built from key `-MF` whose split form is the
written-together form when the input was the `=` form and the original
split otherwise — never the `=` form. -/
theorem c4_MF_rewrite (ctx : Ctx) (args : List Arg) (i : Nat) (st : APState)
    (hk : (aget args i).key = "-MF")
    (hwf : (aget args i).WF)
    (h1 : ctx.oracle.tooHard (aget args i).full = false)
    (h2 : ctx.oracle.tooHardDirect (aget args i).full = false)
    (h3 : ctx.oracle.affectsComp (aget args i).full = false)
    (h4 : ctx.oracle.prefixAffectsComp (aget args i).full = false) :
    processArg ctx args i st = .ok ctx args i
      ((st.withDepFileSpec true).pushDep
        [Arg.fromParts "-MF"
          (if (aget args i).split_tag = ArgSplit.equal_sign then
            ArgSplit.written_together
          else (aget args i).split_tag)
          (ctx.oracle.relpath (aget args i).value)]) ∧
    (if (aget args i).split_tag = ArgSplit.equal_sign then
      ArgSplit.written_together
    else (aget args i).split_tag) ≠ ArgSplit.equal_sign := by
  rcases hA : aget args i with ⟨f, sc, k, v⟩
  rw [hA] at hk hwf h1 h2 h3 h4
  simp only [] at hk h1 h2 h3 h4
  subst hk
  unfold Arg.WF at hwf
  simp only [] at hwf
  cases sc with
  | not_split => exact absurd hwf.1 (by decide)
  | equal_sign =>
    have h5 : f = "-MF" ++ "=" ++ v := hwf
    have hf : f = "-MF=" ++ v := by
      rw [h5]; exact congrArg (· ++ v) rfl
    subst hf
    have hdata : (("-MF=" ++ v) : String).data = '-' :: 'M' :: 'F' :: '=' :: v.data := by
      rw [String.data_append]; rfl
    refine ⟨?_, by simp⟩
    simp [processArg, processArgRest, processArgMain, processArgMainB,
      hA, h1, h2, h3, h4, sStarts, chPre, String.ext_iff, hdata]
  | space =>
    have h5 : f = "-MF" ++ " " ++ v := hwf
    have hf : f = "-MF " ++ v := by
      rw [h5]; exact congrArg (· ++ v) rfl
    subst hf
    have hdata : (("-MF " ++ v) : String).data = '-' :: 'M' :: 'F' :: ' ' :: v.data := by
      rw [String.data_append]; rfl
    refine ⟨?_, by simp⟩
    simp [processArg, processArgRest, processArgMain, processArgMainB,
      hA, h1, h2, h3, h4, sStarts, chPre, String.ext_iff, hdata]
  | written_together =>
    have h5 : f = "-MF" ++ "" ++ v := hwf
    have hf : f = "-MF" ++ v := by
      rw [h5]; exact congrArg (· ++ v) rfl
    subst hf
    have hdata : (("-MF" ++ v) : String).data = '-' :: 'M' :: 'F' :: v.data := by
      rw [String.data_append]; rfl
    refine ⟨?_, by simp⟩
    simp [processArg, processArgRest, processArgMain, processArgMainB,
      hA, h1, h2, h3, h4, sStarts, chPre, String.ext_iff, hdata]

/-- Witness for C4 at the spec's scenario token `-MF=path` in
`cc -c -MF=path foo.c -o foo.o`. -/
theorem c4_MF_rewrite_witness :
    ((aget (addParams ccacheParams
        (["cc", "-c", "-MF=path", "foo.c"].map Arg.fromToken)) 2).key = "-MF" ∧
      (aget (addParams ccacheParams
        (["cc", "-c", "-MF=path", "foo.c"].map Arg.fromToken)) 2).WF) ∧
    processArg (testCtx ["cc", "-c", "-MF=path", "foo.c"] true)
        (addParams ccacheParams (["cc", "-c", "-MF=path", "foo.c"].map Arg.fromToken))
        2 {} = .ok (testCtx ["cc", "-c", "-MF=path", "foo.c"] true)
          (addParams ccacheParams (["cc", "-c", "-MF=path", "foo.c"].map Arg.fromToken))
          2
      (((({} : APState)).withDepFileSpec true).pushDep
        [Arg.fromParts "-MF"
          (if (aget (addParams ccacheParams
              (["cc", "-c", "-MF=path", "foo.c"].map Arg.fromToken)) 2).split_tag =
              ArgSplit.equal_sign then
            ArgSplit.written_together
          else (aget (addParams ccacheParams
              (["cc", "-c", "-MF=path", "foo.c"].map Arg.fromToken)) 2).split_tag)
          ((testCtx ["cc", "-c", "-MF=path", "foo.c"] true).oracle.relpath
            (aget (addParams ccacheParams
              (["cc", "-c", "-MF=path", "foo.c"].map Arg.fromToken)) 2).value)]) :=
  ⟨⟨by decide, by rfl⟩,
    (c4_MF_rewrite (testCtx ["cc", "-c", "-MF=path", "foo.c"] true)
      (addParams ccacheParams (["cc", "-c", "-MF=path", "foo.c"].map Arg.fromToken))
      2 {} (by decide) (by rfl) (by decide) (by decide) (by decide) (by decide)).1⟩

set_option maxHeartbeats 1600000 in
/-- C5. For every well-formed argument starting with `-g` that no earlier
table-driven dispatch rule captures, `process_arg` pushes the token to
`common_args`; reading the family rules first-match as in the source:
a `-gdwarf*` token sets `generating_debuginfo`; a `-gz*` token changes
neither flag; a remaining token with trailing `0` clears both
`generating_debuginfo` and `generating_debuginfo_level_3`; otherwise
debuginfo is enabled, a trailing `3` sets the level-3 flag and
`-gsplit-dwarf` sets `seen_split_dwarf`; after the loop a set level-3 flag
forces `run_second_cpp`. -/
theorem c5_g_family (ctx : Ctx) (args : List Arg) (i : Nat) (st : APState)
    (hwf : (aget args i).WF)
    (hg : sStarts (aget args i).full "-g" = true)
    (h1 : ctx.oracle.tooHard (aget args i).full = false)
    (h2 : ctx.oracle.tooHardDirect (aget args i).full = false)
    (h3 : ctx.oracle.affectsComp (aget args i).full = false)
    (h4 : ctx.oracle.prefixAffectsComp (aget args i).full = false) :
    (sStarts (aget args i).full "-gdwarf" = true →
      processArg ctx args i st =
        .ok (ctx.withInfo (ctx.args_info.withGenDebug true)) args i
          (st.pushCommon [aget args i])) ∧
    (sStarts (aget args i).full "-gdwarf" = false →
      sStarts (aget args i).full "-gz" = true →
      processArg ctx args i st = .ok ctx args i (st.pushCommon [aget args i])) ∧
    (sStarts (aget args i).full "-gdwarf" = false →
      sStarts (aget args i).full "-gz" = false →
      sBack (aget args i).full = '0' →
      processArg ctx args i st =
        .ok (ctx.withInfo (ctx.args_info.withGenDebug false)) args i
          ((st.pushCommon [aget args i]).withLevel3 false)) ∧
    (sStarts (aget args i).full "-gdwarf" = false →
      sStarts (aget args i).full "-gz" = false →
      sBack (aget args i).full ≠ '0' →
      processArg ctx args i st =
        .ok (ctx.withInfo
              ((ctx.args_info.withGenDebug true).withSeenSplitDwarf
                (if (aget args i).full = "-gsplit-dwarf" then true
                 else ctx.args_info.seen_split_dwarf))) args i
          ((st.pushCommon [aget args i]).withLevel3
            (if sBack (aget args i).full = '3' then true
             else st.generating_debuginfo_level_3))) ∧
    ((aget args i).full = "-gsplit-dwarf" →
      processArg ctx args i st =
        .ok (ctx.withInfo
              ((ctx.args_info.withGenDebug true).withSeenSplitDwarf true)) args i
          ((st.pushCommon [aget args i]).withLevel3
            st.generating_debuginfo_level_3)) ∧
    (∀ c s, s.generating_debuginfo_level_3 = true →
      ((postDebugEnv c s).1).config.run_second_cpp = true) := by
  obtain ⟨r0, hr0⟩ := chPre_exists _ _ hg
  have hr : (aget args i).full.data = '-' :: 'g' :: r0 := by rw [hr0]; rfl
  have hk1 : (aget args i).key ≠ "--ccache-skip" :=
    arg_key_ne _ hwf _ (by rw [hr]; rfl)
  have hk2 : (aget args i).key ≠ "-optf" :=
    arg_key_ne _ hwf _ (by rw [hr]; rfl)
  have hk3 : (aget args i).key ≠ "--options-file" :=
    arg_key_ne _ hwf _ (by rw [hr]; rfl)
  have hk4 : (aget args i).key ≠ "-arch" :=
    arg_key_ne _ hwf _ (by rw [hr]; rfl)
  have hk5 : (aget args i).key ≠ "-x" :=
    arg_key_ne _ hwf _ (by rw [hr]; rfl)
  have hk6 : (aget args i).key ≠ "-fdebug-prefix-map" :=
    arg_key_ne _ hwf _ (by rw [hr]; rfl)
  have hk7 : (aget args i).key ≠ "-ffile-prefix-map" :=
    arg_key_ne _ hwf _ (by rw [hr]; rfl)
  have hfE : (aget args i).full ≠ "-E" := by
    intro h; rw [h] at hr; simp at hr
  have hfXclang : (aget args i).full ≠ "-Xclang" := by
    intro h; rw [h] at hr; simp at hr
  have hfModules : (aget args i).full ≠ "-fmodules" := by
    intro h; rw [h] at hr; simp at hr
  have hfC : (aget args i).full ≠ "-c" := by
    intro h; rw [h] at hr; simp at hr
  have hfDc : (aget args i).full ≠ "-dc" := by
    intro h; rw [h] at hr; simp at hr
  have hfDevc : (aget args i).full ≠ "--device-c" := by
    intro h; rw [h] at hr; simp at hr
  have hfS : (aget args i).full ≠ "-S" := by
    intro h; rw [h] at hr; simp at hr
  have hfO : (aget args i).full ≠ "-o" := by
    intro h; rw [h] at hr; simp at hr
  have hsAt : sStarts (aget args i).full "@" = false := by
    unfold sStarts; rw [hr]; rfl
  have hsDashAt : sStarts (aget args i).full "-@" = false := by
    unfold sStarts; rw [hr]; rfl
  have hsXarch : sStarts (aget args i).full "-Xarch_" = false := by
    unfold sStarts; rw [hr]; rfl
  have hsFdump : sStarts (aget args i).full "-fdump-" = false := by
    unfold sStarts; rw [hr]; rfl
  have hsMJ : sStarts (aget args i).full "-MJ" = false := by
    unfold sStarts; rw [hr]; rfl
  have hsO : sStarts (aget args i).full "-o" = false := by
    unfold sStarts; rw [hr]; rfl
  have hR : processArg ctx args i st =
      (if sStarts (aget args i).full "-gdwarf" = true then
        StepResult.ok (ctx.withInfo (ctx.args_info.withGenDebug true)) args i
          (st.pushCommon [aget args i])
      else if sStarts (aget args i).full "-gz" = true then
        StepResult.ok ctx args i (st.pushCommon [aget args i])
      else if sBack (aget args i).full = '0' then
        StepResult.ok (ctx.withInfo (ctx.args_info.withGenDebug false)) args i
          ((st.pushCommon [aget args i]).withLevel3 false)
      else
        StepResult.ok (ctx.withInfo
            ((ctx.args_info.withGenDebug true).withSeenSplitDwarf
              (if (aget args i).full = "-gsplit-dwarf" then true
               else ctx.args_info.seen_split_dwarf))) args i
          ((st.pushCommon [aget args i]).withLevel3
            (if sBack (aget args i).full = '3' then true
             else (st.pushCommon [aget args i]).generating_debuginfo_level_3))) := by
    simp [processArg, processArgRest, processArgMain, processArgMainB,
      h1, h2, h3, h4, hk1, hk2, hk3, hk4, hk5, hk6, hk7,
      hfE, hfXclang, hfModules, hfC, hfDc, hfDevc, hfS, hfO,
      hsAt, hsDashAt, hsXarch, hsFdump, hsMJ, hsO, hg]
  refine ⟨?_, ?_, ?_, ?_, ?_, ?_⟩
  · intro hd; simp [hR, hd]
  · intro hd hz; simp [hR, hd, hz]
  · intro hd hz hb; simp [hR, hd, hz, hb]
  · intro hd hz hb
    simp [hR, hd, hz, hb, APState.pushCommon]
  · intro hfull
    rw [hR, hfull]
    rfl
  · intro c s h
    unfold postDebugEnv
    rw [handleDependencyEnvVars_config]
    by_cases hrsc : c.config.run_second_cpp = true
    · simp [h, hrsc]
    · simp [h, hrsc]

/-- Witness for C5: its level-3 conjunct and the `-gdwarf` conjunct at the
concrete vector `cc -gdwarf-4 -c foo.c`. -/
theorem c5_g_family_witness :
    ((aget (addParams ccacheParams
        (["cc", "-gdwarf-4", "-c", "foo.c"].map Arg.fromToken)) 1).WF ∧
      sStarts (aget (addParams ccacheParams
        (["cc", "-gdwarf-4", "-c", "foo.c"].map Arg.fromToken)) 1).full "-g" = true ∧
      sStarts (aget (addParams ccacheParams
        (["cc", "-gdwarf-4", "-c", "foo.c"].map Arg.fromToken)) 1).full "-gdwarf" = true) ∧
    processArg (testCtx ["cc", "-gdwarf-4", "-c", "foo.c"] true)
        (addParams ccacheParams (["cc", "-gdwarf-4", "-c", "foo.c"].map Arg.fromToken))
        1 {} =
      .ok ((testCtx ["cc", "-gdwarf-4", "-c", "foo.c"] true).withInfo
            ((testCtx ["cc", "-gdwarf-4", "-c", "foo.c"] true).args_info.withGenDebug true))
        (addParams ccacheParams (["cc", "-gdwarf-4", "-c", "foo.c"].map Arg.fromToken))
        1
        (({} : APState).pushCommon
          [aget (addParams ccacheParams
            (["cc", "-gdwarf-4", "-c", "foo.c"].map Arg.fromToken)) 1]) :=
  ⟨⟨by exact ⟨rfl, rfl⟩, by decide, by decide⟩,
    (c5_g_family (testCtx ["cc", "-gdwarf-4", "-c", "foo.c"] true)
      (addParams ccacheParams (["cc", "-gdwarf-4", "-c", "foo.c"].map Arg.fromToken))
      1 {} (by exact ⟨rfl, rfl⟩) (by decide) (by decide) (by decide) (by decide)
      (by decide)).1 (by decide)⟩

set_option maxHeartbeats 1600000 in
/-- C8. For every well-formed argument starting with `-Wp,` whose
comma-separated list contains `-P` — the token equals `-Wp,-P`, contains
the substring `,-P,` or ends with `,-P` — and which no earlier table-driven
dispatch rule captures, `process_arg` terminates with
`unsupported_compiler_option`. -/
theorem c8_Wp_P (ctx : Ctx) (args : List Arg) (i : Nat) (st : APState)
    (hwf : (aget args i).WF)
    (hwp : sStarts (aget args i).full "-Wp," = true)
    (hP : (aget args i).full = "-Wp,-P" ∨ sHasSub (aget args i).full ",-P," = true ∨
      sEnds (aget args i).full ",-P" = true)
    (h1 : ctx.oracle.tooHard (aget args i).full = false)
    (h2 : ctx.oracle.tooHardDirect (aget args i).full = false)
    (h3 : ctx.oracle.affectsComp (aget args i).full = false)
    (h4 : ctx.oracle.prefixAffectsComp (aget args i).full = false) :
    processArg ctx args i st = .err .unsupported_compiler_option := by
  obtain ⟨r0, hr0⟩ := chPre_exists _ _ hwp
  have hr : (aget args i).full.data = '-' :: 'W' :: 'p' :: ',' :: r0 := by
    rw [hr0]; rfl
  have hk1 : (aget args i).key ≠ "--ccache-skip" :=
    arg_key_ne _ hwf _ (by rw [hr]; rfl)
  have hk2 : (aget args i).key ≠ "-optf" :=
    arg_key_ne _ hwf _ (by rw [hr]; rfl)
  have hk3 : (aget args i).key ≠ "--options-file" :=
    arg_key_ne _ hwf _ (by rw [hr]; rfl)
  have hk4 : (aget args i).key ≠ "-arch" :=
    arg_key_ne _ hwf _ (by rw [hr]; rfl)
  have hk5 : (aget args i).key ≠ "-x" :=
    arg_key_ne _ hwf _ (by rw [hr]; rfl)
  have hk6 : (aget args i).key ≠ "-fdebug-prefix-map" :=
    arg_key_ne _ hwf _ (by rw [hr]; rfl)
  have hk7 : (aget args i).key ≠ "-ffile-prefix-map" :=
    arg_key_ne _ hwf _ (by rw [hr]; rfl)
  have hk8 : (aget args i).key ≠ "-MF" :=
    arg_key_ne _ hwf _ (by rw [hr]; rfl)
  have hk9 : (aget args i).key ≠ "-MQ" :=
    arg_key_ne _ hwf _ (by rw [hr]; rfl)
  have hk10 : (aget args i).key ≠ "-MT" :=
    arg_key_ne _ hwf _ (by rw [hr]; rfl)
  have hk11 : (aget args i).key ≠ "-fsanitize-blacklist" :=
    arg_key_ne _ hwf _ (by rw [hr]; rfl)
  have hk12 : (aget args i).key ≠ "--sysroot" :=
    arg_key_ne _ hwf _ (by rw [hr]; rfl)
  have hfE : (aget args i).full ≠ "-E" := by
    intro h; rw [h] at hr; simp at hr
  have hfXclang : (aget args i).full ≠ "-Xclang" := by
    intro h; rw [h] at hr; simp at hr
  have hfModules : (aget args i).full ≠ "-fmodules" := by
    intro h; rw [h] at hr; simp at hr
  have hfC : (aget args i).full ≠ "-c" := by
    intro h; rw [h] at hr; simp at hr
  have hfDc : (aget args i).full ≠ "-dc" := by
    intro h; rw [h] at hr; simp at hr
  have hfDevc : (aget args i).full ≠ "--device-c" := by
    intro h; rw [h] at hr; simp at hr
  have hfS : (aget args i).full ≠ "-S" := by
    intro h; rw [h] at hr; simp at hr
  have hfO : (aget args i).full ≠ "-o" := by
    intro h; rw [h] at hr; simp at hr
  have hfMD : (aget args i).full ≠ "-MD" := by
    intro h; rw [h] at hr; simp at hr
  have hfMMD : (aget args i).full ≠ "-MMD" := by
    intro h; rw [h] at hr; simp at hr
  have hfPA : (aget args i).full ≠ "-fprofile-arcs" := by
    intro h; rw [h] at hr; simp at hr
  have hfTC : (aget args i).full ≠ "-ftest-coverage" := by
    intro h; rw [h] at hr; simp at hr
  have hfSU : (aget args i).full ≠ "-fstack-usage" := by
    intro h; rw [h] at hr; simp at hr
  have hfCov : (aget args i).full ≠ "--coverage" := by
    intro h; rw [h] at hr; simp at hr
  have hfCov2 : (aget args i).full ≠ "-coverage" := by
    intro h; rw [h] at hr; simp at hr
  have hfBP : (aget args i).full ≠ "-fbranch-probabilities" := by
    intro h; rw [h] at hr; simp at hr
  have hfSys : (aget args i).full ≠ "--sysroot" := by
    intro h; rw [h] at hr; simp at hr
  have hfTgt : (aget args i).full ≠ "-target" := by
    intro h; rw [h] at hr; simp at hr
  have hsAt : sStarts (aget args i).full "@" = false := by
    unfold sStarts; rw [hr]; rfl
  have hsDashAt : sStarts (aget args i).full "-@" = false := by
    unfold sStarts; rw [hr]; rfl
  have hsXarch : sStarts (aget args i).full "-Xarch_" = false := by
    unfold sStarts; rw [hr]; rfl
  have hsFdump : sStarts (aget args i).full "-fdump-" = false := by
    unfold sStarts; rw [hr]; rfl
  have hsMJ : sStarts (aget args i).full "-MJ" = false := by
    unfold sStarts; rw [hr]; rfl
  have hsO : sStarts (aget args i).full "-o" = false := by
    unfold sStarts; rw [hr]; rfl
  have hsG : sStarts (aget args i).full "-g" = false := by
    unfold sStarts; rw [hr]; rfl
  have hsFP : sStarts (aget args i).full "-fprofile-" = false := by
    unfold sStarts; rw [hr]; rfl
  have hsFA : sStarts (aget args i).full "-fauto-profile" = false := by
    unfold sStarts; rw [hr]; rfl
  simp [processArg, processArgRest, processArgMain, processArgMainB,
    processArgMid, processArgMidB,
    h1, h2, h3, h4, hk1, hk2, hk3, hk4, hk5, hk6, hk7, hk8, hk9, hk10,
    hk11, hk12, hfE, hfXclang, hfModules, hfC, hfDc, hfDevc, hfS, hfO,
    hfMD, hfMMD, hfPA, hfTC, hfSU, hfCov, hfCov2, hfBP, hfSys, hfTgt,
    hsAt, hsDashAt, hsXarch, hsFdump, hsMJ, hsO, hsG, hsFP, hsFA,
    hwp, hP]

/-- Witness for C8 at the token `-Wp,-P` in `cc -c -Wp,-P foo.c`. -/
theorem c8_Wp_P_witness :
    ((aget (addParams ccacheParams
        (["cc", "-c", "-Wp,-P", "foo.c"].map Arg.fromToken)) 2).WF ∧
      sStarts (aget (addParams ccacheParams
        (["cc", "-c", "-Wp,-P", "foo.c"].map Arg.fromToken)) 2).full "-Wp," = true) ∧
    processArg (testCtx ["cc", "-c", "-Wp,-P", "foo.c"] true)
        (addParams ccacheParams (["cc", "-c", "-Wp,-P", "foo.c"].map Arg.fromToken))
        2 {} = .err .unsupported_compiler_option :=
  ⟨⟨by exact ⟨rfl, rfl⟩, by decide⟩,
    c8_Wp_P (testCtx ["cc", "-c", "-Wp,-P", "foo.c"] true)
      (addParams ccacheParams (["cc", "-c", "-Wp,-P", "foo.c"].map Arg.fromToken))
      2 {} (by exact ⟨rfl, rfl⟩) (by decide) (by decide) (by decide) (by decide)
      (by decide) (by decide)⟩

set_option maxHeartbeats 3200000 in
/-- C3. For every well-formed argument that does not start with `-` (nor
`@`), matches no earlier table-driven dispatch rule, and is `/dev/null` or
stats as a regular file, when an input file has already been recorded:
a recognized source language extension terminates processing with
`multiple_source_files`; otherwise, with neither `-c` nor `-dc` seen so
far, processing terminates with `autoconf_test` when the path contains
`conftest.` and with `called_for_link` when it does not; otherwise it
terminates with `unsupported_source_language`. -/
theorem c3_second_input_file (ctx : Ctx) (args : List Arg) (i : Nat) (st : APState)
    (hwf : (aget args i).WF)
    (hnd : sFirst (aget args i).full ≠ '-')
    (hnd2 : sFirst (aget args i).full ≠ '@')
    (h1 : ctx.oracle.tooHard (aget args i).full = false)
    (h2 : ctx.oracle.tooHardDirect (aget args i).full = false)
    (h3 : ctx.oracle.affectsComp (aget args i).full = false)
    (h4 : ctx.oracle.prefixAffectsComp (aget args i).full = false)
    (h5 : ctx.oracle.takesPath (aget args i).full = false)
    (h6 : ctx.oracle.takesArg (aget args i).full = false)
    (hreg : (aget args i).full = "/dev/null" ∨
      (∃ stt, ctx.oracle.stat (aget args i).full = some stt ∧ stt.is_regular = true))
    (hin : ctx.args_info.input_file ≠ "") :
    (ctx.oracle.languageForFile (aget args i).full ≠ "" →
      processArg ctx args i st = .err .multiple_source_files) ∧
    (ctx.oracle.languageForFile (aget args i).full = "" →
      st.found_c_opt = false → st.found_dc_opt = false →
      sHasSub (aget args i).full "conftest." = true →
      processArg ctx args i st = .err .autoconf_test) ∧
    (ctx.oracle.languageForFile (aget args i).full = "" →
      st.found_c_opt = false → st.found_dc_opt = false →
      sHasSub (aget args i).full "conftest." = false →
      processArg ctx args i st = .err .called_for_link) ∧
    (ctx.oracle.languageForFile (aget args i).full = "" →
      (st.found_c_opt = true ∨ st.found_dc_opt = true) →
      processArg ctx args i st = .err .unsupported_source_language) := by
  have hk1 : (aget args i).key ≠ "--ccache-skip" :=
    arg_key_ne _ hwf _ (chPre_head_ne _ _ _ hnd)
  have hk2 : (aget args i).key ≠ "-optf" :=
    arg_key_ne _ hwf _ (chPre_head_ne _ _ _ hnd)
  have hk3 : (aget args i).key ≠ "--options-file" :=
    arg_key_ne _ hwf _ (chPre_head_ne _ _ _ hnd)
  have hk4 : (aget args i).key ≠ "-arch" :=
    arg_key_ne _ hwf _ (chPre_head_ne _ _ _ hnd)
  have hk5 : (aget args i).key ≠ "-x" :=
    arg_key_ne _ hwf _ (chPre_head_ne _ _ _ hnd)
  have hk6 : (aget args i).key ≠ "-fdebug-prefix-map" :=
    arg_key_ne _ hwf _ (chPre_head_ne _ _ _ hnd)
  have hk7 : (aget args i).key ≠ "-ffile-prefix-map" :=
    arg_key_ne _ hwf _ (chPre_head_ne _ _ _ hnd)
  have hk8 : (aget args i).key ≠ "-MF" :=
    arg_key_ne _ hwf _ (chPre_head_ne _ _ _ hnd)
  have hk9 : (aget args i).key ≠ "-MQ" :=
    arg_key_ne _ hwf _ (chPre_head_ne _ _ _ hnd)
  have hk10 : (aget args i).key ≠ "-MT" :=
    arg_key_ne _ hwf _ (chPre_head_ne _ _ _ hnd)
  have hk11 : (aget args i).key ≠ "-fsanitize-blacklist" :=
    arg_key_ne _ hwf _ (chPre_head_ne _ _ _ hnd)
  have hk12 : (aget args i).key ≠ "--sysroot" :=
    arg_key_ne _ hwf _ (chPre_head_ne _ _ _ hnd)
  have hk13 : (aget args i).key ≠ "-finput-charset" :=
    arg_key_ne _ hwf _ (chPre_head_ne _ _ _ hnd)
  have hfE : (aget args i).full ≠ "-E" := fun h => hnd (by rw [h]; rfl)
  have hfXclang : (aget args i).full ≠ "-Xclang" := fun h => hnd (by rw [h]; rfl)
  have hfModules : (aget args i).full ≠ "-fmodules" := fun h => hnd (by rw [h]; rfl)
  have hfC : (aget args i).full ≠ "-c" := fun h => hnd (by rw [h]; rfl)
  have hfDc : (aget args i).full ≠ "-dc" := fun h => hnd (by rw [h]; rfl)
  have hfDevc : (aget args i).full ≠ "--device-c" := fun h => hnd (by rw [h]; rfl)
  have hfS : (aget args i).full ≠ "-S" := fun h => hnd (by rw [h]; rfl)
  have hfO : (aget args i).full ≠ "-o" := fun h => hnd (by rw [h]; rfl)
  have hfMD : (aget args i).full ≠ "-MD" := fun h => hnd (by rw [h]; rfl)
  have hfMMD : (aget args i).full ≠ "-MMD" := fun h => hnd (by rw [h]; rfl)
  have hfPA : (aget args i).full ≠ "-fprofile-arcs" := fun h => hnd (by rw [h]; rfl)
  have hfTC : (aget args i).full ≠ "-ftest-coverage" := fun h => hnd (by rw [h]; rfl)
  have hfSU : (aget args i).full ≠ "-fstack-usage" := fun h => hnd (by rw [h]; rfl)
  have hfCov : (aget args i).full ≠ "--coverage" := fun h => hnd (by rw [h]; rfl)
  have hfCov2 : (aget args i).full ≠ "-coverage" := fun h => hnd (by rw [h]; rfl)
  have hfBP : (aget args i).full ≠ "-fbranch-probabilities" :=
    fun h => hnd (by rw [h]; rfl)
  have hfSys : (aget args i).full ≠ "--sysroot" := fun h => hnd (by rw [h]; rfl)
  have hfTgt : (aget args i).full ≠ "-target" := fun h => hnd (by rw [h]; rfl)
  have hfMP : (aget args i).full ≠ "-MP" := fun h => hnd (by rw [h]; rfl)
  have hfSD : (aget args i).full ≠ "--serialize-diagnostics" :=
    fun h => hnd (by rw [h]; rfl)
  have hfCD1 : (aget args i).full ≠ "-fcolor-diagnostics" :=
    fun h => hnd (by rw [h]; rfl)
  have hfCD2 : (aget args i).full ≠ "-fdiagnostics-color" :=
    fun h => hnd (by rw [h]; rfl)
  have hfCD3 : (aget args i).full ≠ "-fdiagnostics-color=always" :=
    fun h => hnd (by rw [h]; rfl)
  have hfCD4 : (aget args i).full ≠ "-fno-color-diagnostics" :=
    fun h => hnd (by rw [h]; rfl)
  have hfCD5 : (aget args i).full ≠ "-fno-diagnostics-color" :=
    fun h => hnd (by rw [h]; rfl)
  have hfCD6 : (aget args i).full ≠ "-fdiagnostics-color=never" :=
    fun h => hnd (by rw [h]; rfl)
  have hfCD7 : (aget args i).full ≠ "-fdiagnostics-color=auto" :=
    fun h => hnd (by rw [h]; rfl)
  have hfDO : (aget args i).full ≠ "-fdirectives-only" := fun h => hnd (by rw [h]; rfl)
  have hfRI : (aget args i).full ≠ "-frewrite-includes" := fun h => hnd (by rw [h]; rfl)
  have hfNPT : (aget args i).full ≠ "-fno-pch-timestamp" := fun h => hnd (by rw [h]; rfl)
  have hfPP : (aget args i).full ≠ "-fpch-preprocess" := fun h => hnd (by rw [h]; rfl)
  have hfISP : (aget args i).full ≠ "-index-store-path" := fun h => hnd (by rw [h]; rfl)
  have hsAt : sStarts (aget args i).full "@" = false := by
    unfold sStarts; exact chPre_head_ne _ _ _ hnd2
  have hsDashAt : sStarts (aget args i).full "-@" = false := by
    unfold sStarts; exact chPre_head_ne _ _ _ hnd
  have hsXarch : sStarts (aget args i).full "-Xarch_" = false := by
    unfold sStarts; exact chPre_head_ne _ _ _ hnd
  have hsFdump : sStarts (aget args i).full "-fdump-" = false := by
    unfold sStarts; exact chPre_head_ne _ _ _ hnd
  have hsMJ : sStarts (aget args i).full "-MJ" = false := by
    unfold sStarts; exact chPre_head_ne _ _ _ hnd
  have hsO : sStarts (aget args i).full "-o" = false := by
    unfold sStarts; exact chPre_head_ne _ _ _ hnd
  have hsG : sStarts (aget args i).full "-g" = false := by
    unfold sStarts; exact chPre_head_ne _ _ _ hnd
  have hsFP : sStarts (aget args i).full "-fprofile-" = false := by
    unfold sStarts; exact chPre_head_ne _ _ _ hnd
  have hsFA : sStarts (aget args i).full "-fauto-profile" = false := by
    unfold sStarts; exact chPre_head_ne _ _ _ hnd
  have hsWp : sStarts (aget args i).full "-Wp," = false := by
    unfold sStarts; exact chPre_head_ne _ _ _ hnd
  have hnr : ((aget args i).full != "/dev/null" &&
      !((ctx.oracle.stat (aget args i).full).elim false FsStat.is_regular)) = false := by
    rcases hreg with hdev | ⟨stt, hs, hr2⟩
    · simp [hdev]
    · rw [hs]; simp [Option.elim, hr2]
  have hR : processArg ctx args i st = processArgTail ctx args i st := by
    simp [processArg, processArgRest, processArgMain, processArgMainB,
      processArgMid, processArgMidB, processArgMidC, processArgPath,
      h1, h2, h3, h4, h5, hk1, hk2, hk3, hk4, hk5, hk6, hk7, hk8, hk9, hk10,
      hk11, hk12, hk13, hfE, hfXclang, hfModules, hfC, hfDc, hfDevc, hfS, hfO,
      hfMD, hfMMD, hfPA, hfTC, hfSU, hfCov, hfCov2, hfBP, hfSys, hfTgt,
      hfMP, hfSD, hfCD1, hfCD2, hfCD3, hfCD4, hfCD5, hfCD6, hfCD7,
      hfDO, hfRI, hfNPT, hfPP, hfISP,
      hsAt, hsDashAt, hsXarch, hsFdump, hsMJ, hsO, hsG, hsFP, hsFA, hsWp, hnd]
  refine ⟨?_, ?_, ?_, ?_⟩
  · intro hlang
    rw [hR]; unfold processArgTail
    simp [h6, hnd, hnr, hin, hlang]
  · intro hlang hc hdc hcf
    rw [hR]; unfold processArgTail
    simp [h6, hnd, hnr, hin, hlang, hc, hdc, hcf]
  · intro hlang hc hdc hcf
    rw [hR]; unfold processArgTail
    simp [h6, hnd, hnr, hin, hlang, hc, hdc, hcf]
  · intro hlang hcd
    rw [hR]; unfold processArgTail
    rcases hcd with hc | hdc
    · simp [h6, hnd, hnr, hin, hlang, hc]
    · simp [h6, hnd, hnr, hin, hlang, hdc]

/-- Witness for C3: its multiple-source-files conjunct at the second
`foo.c` of `cc -c foo.c foo.c`, with the input file already recorded. -/
theorem c3_second_input_file_witness :
    ((aget (addParams ccacheParams
        (["cc", "-c", "foo.c", "foo.c"].map Arg.fromToken)) 3).WF ∧
      (testCtx ["cc", "-c", "foo.c", "foo.c"] true).oracle.languageForFile
        (aget (addParams ccacheParams
          (["cc", "-c", "foo.c", "foo.c"].map Arg.fromToken)) 3).full ≠ "") ∧
    processArg
        ((testCtx ["cc", "-c", "foo.c", "foo.c"] true).withInfo
          ((testCtx ["cc", "-c", "foo.c", "foo.c"] true).args_info.withInputFile
            "foo.c"))
        (addParams ccacheParams (["cc", "-c", "foo.c", "foo.c"].map Arg.fromToken))
        3 {} = .err .multiple_source_files :=
  ⟨⟨by exact ⟨rfl, rfl⟩, by decide⟩,
    (c3_second_input_file
      ((testCtx ["cc", "-c", "foo.c", "foo.c"] true).withInfo
        ((testCtx ["cc", "-c", "foo.c", "foo.c"] true).args_info.withInputFile
          "foo.c"))
      (addParams ccacheParams (["cc", "-c", "foo.c", "foo.c"].map Arg.fromToken))
      3 {} (by exact ⟨rfl, rfl⟩) (by decide) (by decide) (by decide) (by decide)
      (by decide) (by decide) (by decide) (by decide)
      (Or.inr ⟨⟨true, false⟩, by decide, by decide⟩) (by decide)).1 (by decide)⟩

/-- C7 counterexample. The vector
`cc -o -fprofile-generate -fprofile-use foo.c -c` contains both a
profile-generate and a profile-use option and hits no earlier terminal
result, yet processing succeeds: `-o` swallows `-fprofile-generate` as the
output name, so the profiling protocol never sees both options. -/
theorem c7_counterexample :
    processArgsFull 20
      (testCtx ["cc", "-o", "-fprofile-generate", "-fprofile-use", "foo.c", "-c"]
        true) = .out c7Out := by
  decide

/-- `Arg::Arg(string_view)` on a token `k=v` whose key part holds no `=`:
the first `=` splits it into key `k` and value `v`. -/
theorem fromToken_eq_split (k v : String) (hk : findEq k.data = none) :
    Arg.fromToken (k ++ "=" ++ v) = ⟨k ++ "=" ++ v, .equal_sign, k, v⟩ := by
  have hdata : (k ++ "=" ++ v).data = k.data ++ '=' :: v.data := by
    rw [show ("=" : String) = String.mk ['='] from rfl, sep_append_data]
  unfold Arg.fromToken
  rw [hdata, findEq_append_eq _ _ hk]
  simp only [take_append_eq, drop_append_succ]

/-- Shape facts of every profile-use option form (the five plain
spellings and the four `=value` spellings), as needed by the dispatch:
the token reaches the profiling rule and no earlier rule matches on its
full form or key. -/
theorem profiling_shape_use (f : String)
    (hf : f = "-fprofile-use" ∨ f = "-fprofile-instr-use" ∨
      f = "-fprofile-sample-use" ∨ f = "-fbranch-probabilities" ∨
      f = "-fauto-profile" ∨
      (∃ v, f = "-fprofile-use=" ++ v ∨ f = "-fprofile-instr-use=" ++ v ∨
        f = "-fprofile-sample-use=" ++ v ∨ f = "-fauto-profile=" ++ v)) :
    sStarts f "-f" = true ∧
    (sStarts f "-fprofile-" = true ∨ sStarts f "-fauto-profile" = true ∨
      f = "-fbranch-probabilities") ∧
    sStarts f "-fdump-" = false ∧ f ≠ "-fmodules" ∧ f ≠ "-fprofile-arcs" ∧
    f ≠ "-ftest-coverage" ∧ f ≠ "-fstack-usage" ∧
    (Arg.fromToken f).key ≠ "-fdebug-prefix-map" ∧
    (Arg.fromToken f).key ≠ "-ffile-prefix-map" := by
  have hs1 : ∀ w : String, Arg.fromToken ("-fprofile-use=" ++ w) =
      ⟨"-fprofile-use=" ++ w, ArgSplit.equal_sign, "-fprofile-use", w⟩ := fun w => by
    have h0 : ("-fprofile-use" : String) ++ "=" ++ w = "-fprofile-use=" ++ w :=
      congrArg (· ++ w) rfl
    rw [← h0]; exact fromToken_eq_split _ _ (by decide)
  have hs2 : ∀ w : String, Arg.fromToken ("-fprofile-instr-use=" ++ w) =
      ⟨"-fprofile-instr-use=" ++ w, ArgSplit.equal_sign, "-fprofile-instr-use", w⟩ :=
    fun w => by
    have h0 : ("-fprofile-instr-use" : String) ++ "=" ++ w =
      "-fprofile-instr-use=" ++ w := congrArg (· ++ w) rfl
    rw [← h0]; exact fromToken_eq_split _ _ (by decide)
  have hs3 : ∀ w : String, Arg.fromToken ("-fprofile-sample-use=" ++ w) =
      ⟨"-fprofile-sample-use=" ++ w, ArgSplit.equal_sign, "-fprofile-sample-use", w⟩ :=
    fun w => by
    have h0 : ("-fprofile-sample-use" : String) ++ "=" ++ w =
      "-fprofile-sample-use=" ++ w := congrArg (· ++ w) rfl
    rw [← h0]; exact fromToken_eq_split _ _ (by decide)
  have hs4 : ∀ w : String, Arg.fromToken ("-fauto-profile=" ++ w) =
      ⟨"-fauto-profile=" ++ w, ArgSplit.equal_sign, "-fauto-profile", w⟩ := fun w => by
    have h0 : ("-fauto-profile" : String) ++ "=" ++ w = "-fauto-profile=" ++ w :=
      congrArg (· ++ w) rfl
    rw [← h0]; exact fromToken_eq_split _ _ (by decide)
  rcases hf with hf | hf | hf | hf | hf | ⟨v, hf | hf | hf | hf⟩
  · subst hf; decide
  · subst hf; decide
  · subst hf; decide
  · subst hf; decide
  · subst hf; decide
  · subst hf
    refine ⟨by rfl, Or.inl (by rfl), by rfl, ?_, ?_, ?_, ?_,
      by rw [hs1]; simp, by rw [hs1]; simp⟩
    all_goals intro h
    all_goals have h2 := congrArg String.data h
    all_goals rw [String.data_append] at h2
    all_goals simp at h2
  · subst hf
    refine ⟨by rfl, Or.inl (by rfl), by rfl, ?_, ?_, ?_, ?_,
      by rw [hs2]; simp, by rw [hs2]; simp⟩
    all_goals intro h
    all_goals have h2 := congrArg String.data h
    all_goals rw [String.data_append] at h2
    all_goals simp at h2
  · subst hf
    refine ⟨by rfl, Or.inl (by rfl), by rfl, ?_, ?_, ?_, ?_,
      by rw [hs3]; simp, by rw [hs3]; simp⟩
    all_goals intro h
    all_goals have h2 := congrArg String.data h
    all_goals rw [String.data_append] at h2
    all_goals simp at h2
  · subst hf
    refine ⟨by rfl, Or.inr (Or.inl (by rfl)), by rfl, ?_, ?_, ?_, ?_,
      by rw [hs4]; simp, by rw [hs4]; simp⟩
    all_goals intro h
    all_goals have h2 := congrArg String.data h
    all_goals rw [String.data_append] at h2
    all_goals simp at h2

/-- Shape facts of every profile-generate option form (the two plain
spellings and the two `=value` spellings). -/
theorem profiling_shape_gen (f : String)
    (hf : f = "-fprofile-generate" ∨ f = "-fprofile-instr-generate" ∨
      (∃ v, f = "-fprofile-generate=" ++ v ∨
        f = "-fprofile-instr-generate=" ++ v)) :
    sStarts f "-f" = true ∧
    (sStarts f "-fprofile-" = true ∨ sStarts f "-fauto-profile" = true ∨
      f = "-fbranch-probabilities") ∧
    sStarts f "-fdump-" = false ∧ f ≠ "-fmodules" ∧ f ≠ "-fprofile-arcs" ∧
    f ≠ "-ftest-coverage" ∧ f ≠ "-fstack-usage" ∧
    (Arg.fromToken f).key ≠ "-fdebug-prefix-map" ∧
    (Arg.fromToken f).key ≠ "-ffile-prefix-map" := by
  have hg1 : ∀ w : String, Arg.fromToken ("-fprofile-generate=" ++ w) =
      ⟨"-fprofile-generate=" ++ w, ArgSplit.equal_sign, "-fprofile-generate", w⟩ :=
    fun w => by
    have h0 : ("-fprofile-generate" : String) ++ "=" ++ w =
      "-fprofile-generate=" ++ w := congrArg (· ++ w) rfl
    rw [← h0]; exact fromToken_eq_split _ _ (by decide)
  have hg2 : ∀ w : String, Arg.fromToken ("-fprofile-instr-generate=" ++ w) =
      ⟨"-fprofile-instr-generate=" ++ w, ArgSplit.equal_sign,
        "-fprofile-instr-generate", w⟩ := fun w => by
    have h0 : ("-fprofile-instr-generate" : String) ++ "=" ++ w =
      "-fprofile-instr-generate=" ++ w := congrArg (· ++ w) rfl
    rw [← h0]; exact fromToken_eq_split _ _ (by decide)
  rcases hf with hf | hf | ⟨v, hf | hf⟩
  · subst hf; decide
  · subst hf; decide
  · subst hf
    refine ⟨by rfl, Or.inl (by rfl), by rfl, ?_, ?_, ?_, ?_,
      by rw [hg1]; simp, by rw [hg1]; simp⟩
    all_goals intro h
    all_goals have h2 := congrArg String.data h
    all_goals rw [String.data_append] at h2
    all_goals simp at h2
  · subst hf
    refine ⟨by rfl, Or.inl (by rfl), by rfl, ?_, ?_, ?_, ?_,
      by rw [hg2]; simp, by rw [hg2]; simp⟩
    all_goals intro h
    all_goals have h2 := congrArg String.data h
    all_goals rw [String.data_append] at h2
    all_goals simp at h2

set_option maxHeartbeats 1600000 in
/-- `process_profiling_option` rejects every profile-use option form once
`profile_generate` or `profile_use` is already set. -/
theorem ppo_use_none (ctx : Ctx) (f : String)
    (hflag : ctx.args_info.profile_generate = true ∨
      ctx.args_info.profile_use = true)
    (hf : f = "-fprofile-use" ∨ f = "-fprofile-instr-use" ∨
      f = "-fprofile-sample-use" ∨ f = "-fbranch-probabilities" ∨
      f = "-fauto-profile" ∨
      (∃ v, f = "-fprofile-use=" ++ v ∨ f = "-fprofile-instr-use=" ++ v ∨
        f = "-fprofile-sample-use=" ++ v ∨ f = "-fauto-profile=" ++ v)) :
    processProfilingOption ctx f = none := by
  have e1 : Arg.fromToken "-fprofile-use" =
      ⟨"-fprofile-use", ArgSplit.not_split, "", ""⟩ := by decide
  have e2 : Arg.fromToken "-fprofile-instr-use" =
      ⟨"-fprofile-instr-use", ArgSplit.not_split, "", ""⟩ := by decide
  have e3 : Arg.fromToken "-fprofile-sample-use" =
      ⟨"-fprofile-sample-use", ArgSplit.not_split, "", ""⟩ := by decide
  have e4 : Arg.fromToken "-fbranch-probabilities" =
      ⟨"-fbranch-probabilities", ArgSplit.not_split, "", ""⟩ := by decide
  have e5 : Arg.fromToken "-fauto-profile" =
      ⟨"-fauto-profile", ArgSplit.not_split, "", ""⟩ := by decide
  have hs1 : ∀ w : String, Arg.fromToken ("-fprofile-use=" ++ w) =
      ⟨"-fprofile-use=" ++ w, ArgSplit.equal_sign, "-fprofile-use", w⟩ := fun w => by
    have h0 : ("-fprofile-use" : String) ++ "=" ++ w = "-fprofile-use=" ++ w :=
      congrArg (· ++ w) rfl
    rw [← h0]; exact fromToken_eq_split _ _ (by decide)
  have hs2 : ∀ w : String, Arg.fromToken ("-fprofile-instr-use=" ++ w) =
      ⟨"-fprofile-instr-use=" ++ w, ArgSplit.equal_sign, "-fprofile-instr-use", w⟩ :=
    fun w => by
    have h0 : ("-fprofile-instr-use" : String) ++ "=" ++ w =
      "-fprofile-instr-use=" ++ w := congrArg (· ++ w) rfl
    rw [← h0]; exact fromToken_eq_split _ _ (by decide)
  have hs3 : ∀ w : String, Arg.fromToken ("-fprofile-sample-use=" ++ w) =
      ⟨"-fprofile-sample-use=" ++ w, ArgSplit.equal_sign, "-fprofile-sample-use", w⟩ :=
    fun w => by
    have h0 : ("-fprofile-sample-use" : String) ++ "=" ++ w =
      "-fprofile-sample-use=" ++ w := congrArg (· ++ w) rfl
    rw [← h0]; exact fromToken_eq_split _ _ (by decide)
  have hs4 : ∀ w : String, Arg.fromToken ("-fauto-profile=" ++ w) =
      ⟨"-fauto-profile=" ++ w, ArgSplit.equal_sign, "-fauto-profile", w⟩ := fun w => by
    have h0 : ("-fauto-profile" : String) ++ "=" ++ w = "-fauto-profile=" ++ w :=
      congrArg (· ++ w) rfl
    rw [← h0]; exact fromToken_eq_split _ _ (by decide)
  by_cases hu : ctx.args_info.profile_use = true
  · rcases hf with hf | hf | hf | hf | hf | ⟨v, hf | hf | hf | hf⟩
    all_goals subst hf
    all_goals simp [processProfilingOption, e1, e2, e3, e4, e5,
      hs1, hs2, hs3, hs4, hu, String.ext_iff, String.data_append]
  · have hg : ctx.args_info.profile_generate = true := hflag.resolve_right hu
    rcases hf with hf | hf | hf | hf | hf | ⟨v, hf | hf | hf | hf⟩
    · subst hf
      by_cases hp : ctx.args_info.profile_path = ""
      all_goals simp [processProfilingOption, e1, hu, hg, hp, String.ext_iff,
        String.data_append, ArgsInfo.withProfileUse, ArgsInfo.withProfilePath]
    · subst hf
      by_cases hp : ctx.args_info.profile_path = ""
      all_goals simp [processProfilingOption, e2, hu, hg, hp, String.ext_iff,
        String.data_append, ArgsInfo.withProfileUse, ArgsInfo.withProfilePath]
    · subst hf
      by_cases hp : ctx.args_info.profile_path = ""
      all_goals simp [processProfilingOption, e3, hu, hg, hp, String.ext_iff,
        String.data_append, ArgsInfo.withProfileUse, ArgsInfo.withProfilePath]
    · subst hf
      by_cases hp : ctx.args_info.profile_path = ""
      all_goals simp [processProfilingOption, e4, hu, hg, hp, String.ext_iff,
        String.data_append, ArgsInfo.withProfileUse, ArgsInfo.withProfilePath]
    · subst hf
      by_cases hp : ctx.args_info.profile_path = ""
      all_goals simp [processProfilingOption, e5, hu, hg, hp, String.ext_iff,
        String.data_append, ArgsInfo.withProfileUse, ArgsInfo.withProfilePath]
    · subst hf
      by_cases hv : v = ""
      · subst hv
        have e6 : Arg.fromToken "-fprofile-use=" =
            ⟨"-fprofile-use=", ArgSplit.equal_sign, "-fprofile-use", ""⟩ := by decide
        simp [processProfilingOption, e6, hu, hg, String.ext_iff,
          String.data_append, ArgsInfo.withProfileUse, ArgsInfo.withProfilePath]
      · simp [processProfilingOption, hs1, hu, hg, hv, String.ext_iff,
          String.data_append, ArgsInfo.withProfileUse, ArgsInfo.withProfilePath]
    · subst hf
      by_cases hv : v = ""
      · subst hv
        have e6 : Arg.fromToken "-fprofile-instr-use=" =
            ⟨"-fprofile-instr-use=", ArgSplit.equal_sign,
              "-fprofile-instr-use", ""⟩ := by decide
        simp [processProfilingOption, e6, hu, hg, String.ext_iff,
          String.data_append, ArgsInfo.withProfileUse, ArgsInfo.withProfilePath]
      · simp [processProfilingOption, hs2, hu, hg, hv, String.ext_iff,
          String.data_append, ArgsInfo.withProfileUse, ArgsInfo.withProfilePath]
    · subst hf
      by_cases hv : v = ""
      · subst hv
        have e6 : Arg.fromToken "-fprofile-sample-use=" =
            ⟨"-fprofile-sample-use=", ArgSplit.equal_sign,
              "-fprofile-sample-use", ""⟩ := by decide
        simp [processProfilingOption, e6, hu, hg, String.ext_iff,
          String.data_append, ArgsInfo.withProfileUse, ArgsInfo.withProfilePath]
      · simp [processProfilingOption, hs3, hu, hg, hv, String.ext_iff,
          String.data_append, ArgsInfo.withProfileUse, ArgsInfo.withProfilePath]
    · subst hf
      by_cases hv : v = ""
      · subst hv
        have e6 : Arg.fromToken "-fauto-profile=" =
            ⟨"-fauto-profile=", ArgSplit.equal_sign, "-fauto-profile", ""⟩ := by
          decide
        simp [processProfilingOption, e6, hu, hg, String.ext_iff,
          String.data_append, ArgsInfo.withProfileUse, ArgsInfo.withProfilePath]
      · simp [processProfilingOption, hs4, hu, hg, hv, String.ext_iff,
          String.data_append, ArgsInfo.withProfileUse, ArgsInfo.withProfilePath]

set_option maxHeartbeats 1600000 in
/-- `process_profiling_option` rejects every profile-generate option form
once `profile_use` is already set. -/
theorem ppo_gen_none (ctx : Ctx) (f : String)
    (hu : ctx.args_info.profile_use = true)
    (hf : f = "-fprofile-generate" ∨ f = "-fprofile-instr-generate" ∨
      (∃ v, f = "-fprofile-generate=" ++ v ∨
        f = "-fprofile-instr-generate=" ++ v)) :
    processProfilingOption ctx f = none := by
  have e1 : Arg.fromToken "-fprofile-generate" =
      ⟨"-fprofile-generate", ArgSplit.not_split, "", ""⟩ := by decide
  have e2 : Arg.fromToken "-fprofile-instr-generate" =
      ⟨"-fprofile-instr-generate", ArgSplit.not_split, "", ""⟩ := by decide
  have hg1 : ∀ w : String, Arg.fromToken ("-fprofile-generate=" ++ w) =
      ⟨"-fprofile-generate=" ++ w, ArgSplit.equal_sign, "-fprofile-generate", w⟩ :=
    fun w => by
    have h0 : ("-fprofile-generate" : String) ++ "=" ++ w =
      "-fprofile-generate=" ++ w := congrArg (· ++ w) rfl
    rw [← h0]; exact fromToken_eq_split _ _ (by decide)
  have hg2 : ∀ w : String, Arg.fromToken ("-fprofile-instr-generate=" ++ w) =
      ⟨"-fprofile-instr-generate=" ++ w, ArgSplit.equal_sign,
        "-fprofile-instr-generate", w⟩ := fun w => by
    have h0 : ("-fprofile-instr-generate" : String) ++ "=" ++ w =
      "-fprofile-instr-generate=" ++ w := congrArg (· ++ w) rfl
    rw [← h0]; exact fromToken_eq_split _ _ (by decide)
  rcases hf with hf | hf | ⟨v, hf | hf⟩
  · subst hf
    by_cases hc : ctx.guessed_compiler = GuessedCompiler.clang
    · simp [processProfilingOption, e1, hc, hu, String.ext_iff,
        String.data_append, ArgsInfo.withProfileGen, ArgsInfo.withProfilePath]
    · by_cases hcwd : ctx.apparent_cwd = ""
      all_goals simp [processProfilingOption, e1, hc, hcwd, hu, String.ext_iff,
        String.data_append, ArgsInfo.withProfileGen, ArgsInfo.withProfilePath]
  · subst hf
    by_cases hc : ctx.guessed_compiler = GuessedCompiler.clang
    · simp [processProfilingOption, e2, hc, hu, String.ext_iff,
        String.data_append, ArgsInfo.withProfileGen, ArgsInfo.withProfilePath]
    · by_cases hcwd : ctx.apparent_cwd = ""
      all_goals simp [processProfilingOption, e2, hc, hcwd, hu, String.ext_iff,
        String.data_append, ArgsInfo.withProfileGen, ArgsInfo.withProfilePath]
  · subst hf
    by_cases hv : v = ""
    · subst hv
      have e3 : Arg.fromToken "-fprofile-generate=" =
          ⟨"-fprofile-generate=", ArgSplit.equal_sign, "-fprofile-generate", ""⟩ := by
        decide
      simp [processProfilingOption, e3, hu, String.ext_iff,
        String.data_append, ArgsInfo.withProfileGen, ArgsInfo.withProfilePath]
    · simp [processProfilingOption, hg1, hu, hv, String.ext_iff,
        String.data_append, ArgsInfo.withProfileGen, ArgsInfo.withProfilePath]
  · subst hf
    by_cases hv : v = ""
    · subst hv
      have e3 : Arg.fromToken "-fprofile-instr-generate=" =
          ⟨"-fprofile-instr-generate=", ArgSplit.equal_sign,
            "-fprofile-instr-generate", ""⟩ := by decide
      simp [processProfilingOption, e3, hu, String.ext_iff,
        String.data_append, ArgsInfo.withProfileGen, ArgsInfo.withProfilePath]
    · simp [processProfilingOption, hg2, hu, hv, String.ext_iff,
        String.data_append, ArgsInfo.withProfileGen, ArgsInfo.withProfilePath]

set_option maxHeartbeats 3200000 in
/-- Dispatch up to the profiling rule: a well-formed `-f…` argument that
reaches the profiling sub-protocol (matches its guard, no earlier rule)
and is rejected by `process_profiling_option` makes `process_arg`
terminate with `unsupported_compiler_option`. -/
theorem processArg_profiling_reject (ctx : Ctx) (args : List Arg) (i : Nat)
    (st : APState)
    (hwf : (aget args i).WF)
    (h1 : ctx.oracle.tooHard (aget args i).full = false)
    (h2 : ctx.oracle.tooHardDirect (aget args i).full = false)
    (h3 : ctx.oracle.affectsComp (aget args i).full = false)
    (h4 : ctx.oracle.prefixAffectsComp (aget args i).full = false)
    (hstart : sStarts (aget args i).full "-f" = true)
    (hfam : sStarts (aget args i).full "-fprofile-" = true ∨
      sStarts (aget args i).full "-fauto-profile" = true ∨
      (aget args i).full = "-fbranch-probabilities")
    (hd1 : sStarts (aget args i).full "-fdump-" = false)
    (hd2 : (aget args i).full ≠ "-fmodules")
    (hd3 : (aget args i).full ≠ "-fprofile-arcs")
    (hd4 : (aget args i).full ≠ "-ftest-coverage")
    (hd5 : (aget args i).full ≠ "-fstack-usage")
    (hk1 : (aget args i).key ≠ "-fdebug-prefix-map")
    (hk2 : (aget args i).key ≠ "-ffile-prefix-map")
    (hppo : processProfilingOption ctx (aget args i).full = none) :
    processArg ctx args i st = .err .unsupported_compiler_option := by
  obtain ⟨r0, hr0⟩ := chPre_exists _ _ hstart
  have hr : (aget args i).full.data = '-' :: 'f' :: r0 := by rw [hr0]; rfl
  have hka : (aget args i).key ≠ "--ccache-skip" :=
    arg_key_ne _ hwf _ (by rw [hr]; rfl)
  have hkb : (aget args i).key ≠ "-optf" :=
    arg_key_ne _ hwf _ (by rw [hr]; rfl)
  have hkc : (aget args i).key ≠ "--options-file" :=
    arg_key_ne _ hwf _ (by rw [hr]; rfl)
  have hkd : (aget args i).key ≠ "-arch" :=
    arg_key_ne _ hwf _ (by rw [hr]; rfl)
  have hke : (aget args i).key ≠ "-x" :=
    arg_key_ne _ hwf _ (by rw [hr]; rfl)
  have hkf : (aget args i).key ≠ "-MF" :=
    arg_key_ne _ hwf _ (by rw [hr]; rfl)
  have hkg : (aget args i).key ≠ "-MQ" :=
    arg_key_ne _ hwf _ (by rw [hr]; rfl)
  have hkh : (aget args i).key ≠ "-MT" :=
    arg_key_ne _ hwf _ (by rw [hr]; rfl)
  have hfE : (aget args i).full ≠ "-E" := by
    intro h; rw [h] at hr; simp at hr
  have hfXclang : (aget args i).full ≠ "-Xclang" := by
    intro h; rw [h] at hr; simp at hr
  have hfC : (aget args i).full ≠ "-c" := by
    intro h; rw [h] at hr; simp at hr
  have hfDc : (aget args i).full ≠ "-dc" := by
    intro h; rw [h] at hr; simp at hr
  have hfDevc : (aget args i).full ≠ "--device-c" := by
    intro h; rw [h] at hr; simp at hr
  have hfS : (aget args i).full ≠ "-S" := by
    intro h; rw [h] at hr; simp at hr
  have hfO : (aget args i).full ≠ "-o" := by
    intro h; rw [h] at hr; simp at hr
  have hfMD : (aget args i).full ≠ "-MD" := by
    intro h; rw [h] at hr; simp at hr
  have hfMMD : (aget args i).full ≠ "-MMD" := by
    intro h; rw [h] at hr; simp at hr
  have hfCov : (aget args i).full ≠ "--coverage" := by
    intro h; rw [h] at hr; simp at hr
  have hfCov2 : (aget args i).full ≠ "-coverage" := by
    intro h; rw [h] at hr; simp at hr
  have hsAt : sStarts (aget args i).full "@" = false := by
    unfold sStarts; rw [hr]; rfl
  have hsDashAt : sStarts (aget args i).full "-@" = false := by
    unfold sStarts; rw [hr]; rfl
  have hsXarch : sStarts (aget args i).full "-Xarch_" = false := by
    unfold sStarts; rw [hr]; rfl
  have hsMJ : sStarts (aget args i).full "-MJ" = false := by
    unfold sStarts; rw [hr]; rfl
  have hsO : sStarts (aget args i).full "-o" = false := by
    unfold sStarts; rw [hr]; rfl
  have hsG : sStarts (aget args i).full "-g" = false := by
    unfold sStarts; rw [hr]; rfl
  simp [processArg, processArgRest, processArgMain, processArgMainB,
    processArgMid, h1, h2, h3, h4, hka, hkb, hkc, hkd, hke, hkf, hkg, hkh,
    hfE, hfXclang, hfC, hfDc, hfDevc, hfS, hfO, hfMD, hfMMD, hfCov, hfCov2,
    hsAt, hsDashAt, hsXarch, hsMJ, hsO, hsG,
    hd1, hd2, hd3, hd4, hd5, hk1, hk2, hfam, hppo]

set_option maxHeartbeats 1600000 in
/-- C7 amended. The conflict is detected per processed option, not per
vector: when the argument at the current index is any profile-use option
(`-fprofile-use`, `-fprofile-instr-use`, `-fprofile-sample-use`,
`-fbranch-probabilities`, `-fauto-profile`, with or without `=value`
where the code accepts one) and `profile_generate` is already set — or a
profile-generate option (`-fprofile-generate`,
`-fprofile-instr-generate`, with or without `=value`) with `profile_use`
already set, or a second profile-use option — and the tables claim no
earlier dispatch rule, `process_arg` terminates with
`unsupported_compiler_option`. -/
theorem c7_profile_conflict (ctx : Ctx) (args : List Arg) (i : Nat) (st : APState)
    (h1 : ctx.oracle.tooHard (aget args i).full = false)
    (h2 : ctx.oracle.tooHardDirect (aget args i).full = false)
    (h3 : ctx.oracle.affectsComp (aget args i).full = false)
    (h4 : ctx.oracle.prefixAffectsComp (aget args i).full = false) :
    (∀ f, (f = "-fprofile-use" ∨ f = "-fprofile-instr-use" ∨
        f = "-fprofile-sample-use" ∨ f = "-fbranch-probabilities" ∨
        f = "-fauto-profile" ∨
        (∃ v, f = "-fprofile-use=" ++ v ∨ f = "-fprofile-instr-use=" ++ v ∨
          f = "-fprofile-sample-use=" ++ v ∨ f = "-fauto-profile=" ++ v)) →
      aget args i = Arg.fromToken f →
      ctx.args_info.profile_generate = true →
      processArg ctx args i st = .err .unsupported_compiler_option) ∧
    (∀ f, (f = "-fprofile-generate" ∨ f = "-fprofile-instr-generate" ∨
        (∃ v, f = "-fprofile-generate=" ++ v ∨
          f = "-fprofile-instr-generate=" ++ v)) →
      aget args i = Arg.fromToken f →
      ctx.args_info.profile_use = true →
      processArg ctx args i st = .err .unsupported_compiler_option) ∧
    (∀ f, (f = "-fprofile-use" ∨ f = "-fprofile-instr-use" ∨
        f = "-fprofile-sample-use" ∨ f = "-fbranch-probabilities" ∨
        f = "-fauto-profile" ∨
        (∃ v, f = "-fprofile-use=" ++ v ∨ f = "-fprofile-instr-use=" ++ v ∨
          f = "-fprofile-sample-use=" ++ v ∨ f = "-fauto-profile=" ++ v)) →
      aget args i = Arg.fromToken f →
      ctx.args_info.profile_use = true →
      processArg ctx args i st = .err .unsupported_compiler_option) := by
  refine ⟨?_, ?_, ?_⟩
  · intro f hf ha hg
    have hfu : (aget args i).full = f := by rw [ha, fromToken_full]
    obtain ⟨s1, s2, s3, s4, s5, s6, s7, s8, s9⟩ := profiling_shape_use f hf
    exact processArg_profiling_reject ctx args i st
      (by rw [ha]; exact fromToken_WF f) h1 h2 h3 h4
      (by rw [hfu]; exact s1) (by rw [hfu]; exact s2) (by rw [hfu]; exact s3)
      (by rw [hfu]; exact s4) (by rw [hfu]; exact s5) (by rw [hfu]; exact s6)
      (by rw [hfu]; exact s7) (by rw [ha]; exact s8) (by rw [ha]; exact s9)
      (by rw [hfu]; exact ppo_use_none ctx f (Or.inl hg) hf)
  · intro f hf ha hu
    have hfu : (aget args i).full = f := by rw [ha, fromToken_full]
    obtain ⟨s1, s2, s3, s4, s5, s6, s7, s8, s9⟩ := profiling_shape_gen f hf
    exact processArg_profiling_reject ctx args i st
      (by rw [ha]; exact fromToken_WF f) h1 h2 h3 h4
      (by rw [hfu]; exact s1) (by rw [hfu]; exact s2) (by rw [hfu]; exact s3)
      (by rw [hfu]; exact s4) (by rw [hfu]; exact s5) (by rw [hfu]; exact s6)
      (by rw [hfu]; exact s7) (by rw [ha]; exact s8) (by rw [ha]; exact s9)
      (by rw [hfu]; exact ppo_gen_none ctx f hu hf)
  · intro f hf ha hu
    have hfu : (aget args i).full = f := by rw [ha, fromToken_full]
    obtain ⟨s1, s2, s3, s4, s5, s6, s7, s8, s9⟩ := profiling_shape_use f hf
    exact processArg_profiling_reject ctx args i st
      (by rw [ha]; exact fromToken_WF f) h1 h2 h3 h4
      (by rw [hfu]; exact s1) (by rw [hfu]; exact s2) (by rw [hfu]; exact s3)
      (by rw [hfu]; exact s4) (by rw [hfu]; exact s5) (by rw [hfu]; exact s6)
      (by rw [hfu]; exact s7) (by rw [ha]; exact s8) (by rw [ha]; exact s9)
      (by rw [hfu]; exact ppo_use_none ctx f (Or.inr hu) hf)

/-- Witness for C7 amended: the `=value` form `-fprofile-use=data` with
`profile_generate` already set errs at the concrete context. -/
theorem c7_profile_conflict_witness :
    (aget [Arg.fromToken "cc", Arg.fromToken ("-fprofile-use=" ++ "data")] 1 =
        Arg.fromToken ("-fprofile-use=" ++ "data") ∧
      ((testCtx ["cc", "-fprofile-use=data"] true).withInfo
        ((testCtx ["cc", "-fprofile-use=data"] true).args_info.withProfileGen
          true)).args_info.profile_generate = true) ∧
    processArg
        ((testCtx ["cc", "-fprofile-use=data"] true).withInfo
          ((testCtx ["cc", "-fprofile-use=data"] true).args_info.withProfileGen
            true))
        [Arg.fromToken "cc", Arg.fromToken ("-fprofile-use=" ++ "data")] 1 {} =
      .err .unsupported_compiler_option :=
  ⟨⟨by decide, by decide⟩,
    (c7_profile_conflict
      ((testCtx ["cc", "-fprofile-use=data"] true).withInfo
        ((testCtx ["cc", "-fprofile-use=data"] true).args_info.withProfileGen
          true))
      [Arg.fromToken "cc", Arg.fromToken ("-fprofile-use=" ++ "data")] 1 {}
      (by decide) (by decide) (by decide) (by decide)).1
      ("-fprofile-use=" ++ "data")
      (Or.inr (Or.inr (Or.inr (Or.inr (Or.inr ⟨"data", Or.inl rfl⟩)))))
      (by decide) (by decide)⟩

/-- C6 counterexample. In `cc --ccache-skip -E foo.c -c` the token after
`--ccache-skip` starts with `-`, so the parameter fusion leaves
`--ccache-skip` unsplit; the skip rule (which matches on the key of a fused
argument) does not fire and `-E` is classified normally, terminating
processing with `called_for_preprocessing` instead of pushing `-E`
verbatim. -/
theorem c6_counterexample :
    processArgsFull 20
      (testCtx ["cc", "--ccache-skip", "-E", "foo.c", "-c"] true) =
      .err .called_for_preprocessing := by
  decide

/-- C6 amended. The skip only happens through parameter fusion: when the
following token does not start with `-`, fusion produces the split Arg
`(--ccache-skip, space, t)`, and `process_arg` on such an Arg pushes `t`
verbatim into `common_args` with no other classification of `t`. -/
theorem c6_ccache_skip (ctx : Ctx) (args : List Arg) (i : Nat) (st : APState)
    (t : String) :
    (sStarts t "-" = false →
      ∀ rest, fuseParam "--ccache-skip" [ArgSplit.space]
          (Arg.fromToken "--ccache-skip" :: Arg.fromToken t :: rest) =
        Arg.fromParts "--ccache-skip" ArgSplit.space t ::
          fuseParam "--ccache-skip" [ArgSplit.space] rest) ∧
    (aget args i = Arg.fromParts "--ccache-skip" ArgSplit.space t →
      processArg ctx args i st = .ok ctx args i (st.pushCommon [Arg.fromToken t])) := by
  constructor
  · intro hns rest
    have hcs : Arg.fromToken "--ccache-skip" =
        ⟨"--ccache-skip", ArgSplit.not_split, "", ""⟩ := by decide
    have hb : (Arg.fromToken t).full = t := fromToken_full t
    simp [fuseParam, hcs, hb, hns]
  · intro ha
    have hk := fromParts_key "--ccache-skip" t ArgSplit.space (by decide)
    have hv := fromParts_value "--ccache-skip" t ArgSplit.space (by decide)
    simp [processArg, ha, hk, hv]

/-- Witness for C6 amended at `t = "foo"`: the fusion equation and the
verbatim push. -/
theorem c6_ccache_skip_witness :
    (sStarts "foo" "-" = false ∧
      fuseParam "--ccache-skip" [ArgSplit.space]
          [Arg.fromToken "--ccache-skip", Arg.fromToken "foo"] =
        [Arg.fromParts "--ccache-skip" ArgSplit.space "foo"]) ∧
    (aget [Arg.fromParts "--ccache-skip" ArgSplit.space "foo"] 0 =
        Arg.fromParts "--ccache-skip" ArgSplit.space "foo" ∧
      processArg (testCtx ["cc"] true)
          [Arg.fromParts "--ccache-skip" ArgSplit.space "foo"] 0 {} =
        .ok (testCtx ["cc"] true)
          [Arg.fromParts "--ccache-skip" ArgSplit.space "foo"] 0
          (({} : APState).pushCommon [Arg.fromToken "foo"])) :=
  ⟨⟨by decide,
    (c6_ccache_skip (testCtx ["cc"] true) [] 0 {} "foo").1 (by decide) []⟩,
   ⟨by decide,
    (c6_ccache_skip (testCtx ["cc"] true)
      [Arg.fromParts "--ccache-skip" ArgSplit.space "foo"] 0 {} "foo").2
      (by decide)⟩⟩

end Ccache
